import Mathlib

/-!
# NVIDIA Fabric Manager API interface: `nv_fm_types.h` and `nv_fm_agent.h`

A shallow embedding of the two public headers of the Fabric Manager API
interface library, and theorems about it.

* `fmReturn_t`, `MAKE_FM_PARAM_VERSION`, the structure declarations and the
  `*_version` macros are translated from `include/nv_fm_types.h`.
* The prototypes of the `fm*` entry points are translated from
  `include/nv_fm_agent.h`.
* The bodies of the entry points are not part of the headers.  The partition
  lifecycle they implement is modelled from the written specification and from
  the return codes documented above each prototype.

Machine integers are natural numbers; where C truncates, the truncation is an
explicit `% 2 ^ 32`.
-/

namespace FabricManager

/-! ## Return codes (`nv_fm_types.h`, lines 25-41) -/

/-- Return values for Fabric Manager API calls (`fmReturn_t`). -/
inductive fmReturn_t where
  | FM_ST_SUCCESS
  | FM_ST_BADPARAM
  | FM_ST_GENERIC_ERROR
  | FM_ST_NOT_SUPPORTED
  | FM_ST_UNINITIALIZED
  | FM_ST_TIMEOUT
  | FM_ST_VERSION_MISMATCH
  | FM_ST_IN_USE
  | FM_ST_NOT_CONFIGURED
  | FM_ST_CONNECTION_NOT_VALID
  | FM_ST_NVLINK_ERROR
  deriving DecidableEq, Repr

namespace fmReturn_t

/-- The integer each enumerator is defined to be in `enum fmReturn_enum`. -/
def toInt : fmReturn_t → Int
  | FM_ST_SUCCESS => 0
  | FM_ST_BADPARAM => -1
  | FM_ST_GENERIC_ERROR => -2
  | FM_ST_NOT_SUPPORTED => -3
  | FM_ST_UNINITIALIZED => -4
  | FM_ST_TIMEOUT => -5
  | FM_ST_VERSION_MISMATCH => -6
  | FM_ST_IN_USE => -7
  | FM_ST_NOT_CONFIGURED => -8
  | FM_ST_CONNECTION_NOT_VALID => -9
  | FM_ST_NVLINK_ERROR => -10

/-- All enumerators, in declaration order. -/
def all : List fmReturn_t :=
  [FM_ST_SUCCESS, FM_ST_BADPARAM, FM_ST_GENERIC_ERROR, FM_ST_NOT_SUPPORTED,
   FM_ST_UNINITIALIZED, FM_ST_TIMEOUT, FM_ST_VERSION_MISMATCH, FM_ST_IN_USE,
   FM_ST_NOT_CONFIGURED, FM_ST_CONNECTION_NOT_VALID, FM_ST_NVLINK_ERROR]

/-- The ten error enumerators: every enumerator but `FM_ST_SUCCESS`. -/
def errors : List fmReturn_t :=
  [FM_ST_BADPARAM, FM_ST_GENERIC_ERROR, FM_ST_NOT_SUPPORTED,
   FM_ST_UNINITIALIZED, FM_ST_TIMEOUT, FM_ST_VERSION_MISMATCH, FM_ST_IN_USE,
   FM_ST_NOT_CONFIGURED, FM_ST_CONNECTION_NOT_VALID, FM_ST_NVLINK_ERROR]

end fmReturn_t

open fmReturn_t

/-! ## Constants (`nv_fm_types.h`) -/

/-- Max length of the FM string field. -/
def FM_MAX_STR_LENGTH : Nat := 256

/-- Buffer size guaranteed to be large enough to hold UUID. -/
def FM_UUID_BUFFER_SIZE : Nat := 80

/-- Buffer size guaranteed to be large enough for pci bus id. -/
def FM_DEVICE_PCI_BUS_ID_BUFFER_SIZE : Nat := 32

/-- Default port number used by the FM interface library. -/
def FM_CMD_PORT_NUMBER : Nat := 6666

/-- Max number of GPUs supported by FM. -/
def FM_MAX_NUM_GPUS : Nat := 16

/-- Max number of NVSwitches supported by FM. -/
def FM_MAX_NUM_NVSWITCHES : Nat := 12

/-- Max number of GPU/fabric partitions supported by FM. -/
def FM_MAX_FABRIC_PARTITIONS : Nat := 64

/-- Max number of ports per NVLink device supported by FM. -/
def FM_MAX_NUM_NVLINK_PORTS : Nat := 64

/-! ## The version tag (`nv_fm_types.h`, lines 60-63) -/

/-- The macro
`#define MAKE_FM_PARAM_VERSION(typeName,ver) (unsigned int)(sizeof(typeName) | ((ver)<<24))`
with `size` standing for `sizeof(typeName)`.  The cast to the 32-bit
`unsigned int` is the `% 2 ^ 32`.  The bitwise OR and the shift are taken on
unbounded naturals: the low 32 bits of the result, which are all the cast
keeps, do not depend on the width of the intermediate operands. -/
def MAKE_FM_PARAM_VERSION (size ver : Nat) : Nat :=
  (size ||| (ver <<< 24)) % 2 ^ 32

/-! ## Structure declarations and their layout (`nv_fm_types.h`)

The C types the header uses are `unsigned int`, `char`, fixed-size arrays and
anonymous structures.  `CType` describes them; `sizeof`, `alignof` and the
member offsets follow the usual C layout: each member is placed at the next
offset that is a multiple of its alignment, a structure is aligned like its
most aligned member, and its size is rounded up to its alignment.
`unsigned int` is 4 bytes, 4-aligned; `char` is 1 byte. -/

/-- C types occurring in `nv_fm_types.h`. -/
inductive CType where
  | uint : CType
  | char : CType
  | array : CType → Nat → CType
  | struct : List (String × CType) → CType
  deriving Repr

/-- Round `off` up to the next multiple of `a`. -/
def alignUp (off a : Nat) : Nat := (off + a - 1) / a * a

mutual
/-- The value of `sizeof` for a type. -/
def CType.sizeof : CType → Nat
  | .uint => 4
  | .char => 1
  | .array t n => t.sizeof * n
  | .struct fs => alignUp (membersEnd fs 0) (membersAlign fs)
/-- Offset just past the last member when the members are laid out from `off`. -/
def membersEnd : List (String × CType) → Nat → Nat
  | [], off => off
  | (_, t) :: fs, off => membersEnd fs (alignUp off t.alignof + t.sizeof)
/-- The alignment requirement of a type. -/
def CType.alignof : CType → Nat
  | .uint => 4
  | .char => 1
  | .array t _ => t.alignof
  | .struct fs => membersAlign fs
/-- The largest alignment among the members. -/
def membersAlign : List (String × CType) → Nat
  | [] => 1
  | (_, t) :: fs => max t.alignof (membersAlign fs)
end

/-- The members of a structure with their offsets, laid out from `off`. -/
def membersLayout : List (String × CType) → Nat → List (String × CType × Nat)
  | [], _ => []
  | (n, t) :: fs, off =>
    (n, t, alignUp off t.alignof) :: membersLayout fs (alignUp off t.alignof + t.sizeof)

/-- Name, type and offset of every member of a type (empty if not a structure). -/
def CType.layout : CType → List (String × CType × Nat)
  | .struct fs => membersLayout fs 0
  | _ => []

/-- Name, type and offset of the first member of a structure. -/
def CType.firstMember (t : CType) : Option (String × CType × Nat) := t.layout.head?

/-- Whether a type is exactly `unsigned int`. -/
def CType.isUInt : CType → Bool
  | .uint => true
  | _ => false

/-- A structure begins with the version tag: its first member is
`unsigned int version`, at offset 0. -/
def CType.beginsWithVersion (t : CType) : Bool :=
  match t.firstMember with
  | some (n, ty, off) => n == "version" && ty.isUInt && off == 0
  | none => false

/-- Whether a structure has a member called `name`. -/
def CType.hasMember (t : CType) (name : String) : Bool :=
  t.layout.any (fun m => m.1 == name)

/-- Connection options for fmConnect(): `fmConnectParams_v1`. -/
def fmConnectParams_v1 : CType :=
  .struct [("version", .uint),
           ("addressInfo", .array .char FM_MAX_STR_LENGTH),
           ("timeoutMs", .uint),
           ("addressIsUnixSocket", .uint)]

/-- PCI Device (BDF) Information: `fmPciDevice_t`. -/
def fmPciDevice_t : CType :=
  .struct [("domain", .uint), ("bus", .uint), ("device", .uint), ("function", .uint)]

/-- Information about a GPU belonging to a fabric partition:
`fmFabricPartitionGpuInfo_t`. -/
def fmFabricPartitionGpuInfo_t : CType :=
  .struct [("physicalId", .uint),
           ("uuid", .array .char FM_UUID_BUFFER_SIZE),
           ("pciBusId", .array .char FM_DEVICE_PCI_BUS_ID_BUFFER_SIZE),
           ("numNvLinksAvailable", .uint),
           ("maxNumNvLinks", .uint),
           ("nvlinkLineRateMBps", .uint)]

/-- Information about a fabric partition: `fmFabricPartitionInfo_t`
(`fmFabricPartitionId_t` is `unsigned int`). -/
def fmFabricPartitionInfo_t : CType :=
  .struct [("partitionId", .uint),
           ("isActive", .uint),
           ("numGpus", .uint),
           ("gpuInfo", .array fmFabricPartitionGpuInfo_t FM_MAX_NUM_GPUS)]

/-- All the supported fabric partitions: `fmFabricPartitionList_v2`. -/
def fmFabricPartitionList_v2 : CType :=
  .struct [("version", .uint),
           ("numPartitions", .uint),
           ("maxNumPartitions", .uint),
           ("partitionInfo", .array fmFabricPartitionInfo_t FM_MAX_FABRIC_PARTITIONS)]

/-- All the activated fabric partition ids: `fmActivatedFabricPartitionList_v1`. -/
def fmActivatedFabricPartitionList_v1 : CType :=
  .struct [("version", .uint),
           ("numPartitions", .uint),
           ("partitionIds", .array .uint FM_MAX_FABRIC_PARTITIONS)]

/-- A NVSwitch or GPU with failed NVLinks: `fmNvlinkFailedDeviceInfo_t`. -/
def fmNvlinkFailedDeviceInfo_t : CType :=
  .struct [("uuid", .array .char FM_UUID_BUFFER_SIZE),
           ("pciBusId", .array .char FM_DEVICE_PCI_BUS_ID_BUFFER_SIZE),
           ("numPorts", .uint),
           ("portNum", .array .uint FM_MAX_NUM_NVLINK_PORTS)]

/-- List of NVSwitches and GPUs with failed NVLinks: `fmNvlinkFailedDevices_v1`. -/
def fmNvlinkFailedDevices_v1 : CType :=
  .struct [("version", .uint),
           ("numGpus", .uint),
           ("numSwitches", .uint),
           ("gpuInfo", .array fmNvlinkFailedDeviceInfo_t FM_MAX_NUM_GPUS),
           ("switchInfo", .array fmNvlinkFailedDeviceInfo_t FM_MAX_NUM_NVSWITCHES)]

/-- An unsupported fabric partition: `fmUnsupportedFabricPartitionInfo_t`. -/
def fmUnsupportedFabricPartitionInfo_t : CType :=
  .struct [("partitionId", .uint),
           ("numGpus", .uint),
           ("gpuPhysicalIds", .array .uint FM_MAX_NUM_GPUS)]

/-- All the unsupported fabric partitions: `fmUnsupportedFabricPartitionList_v1`. -/
def fmUnsupportedFabricPartitionList_v1 : CType :=
  .struct [("version", .uint),
           ("numPartitions", .uint),
           ("partitionInfo", .array fmUnsupportedFabricPartitionInfo_t FM_MAX_FABRIC_PARTITIONS)]

/-! The `typedef`s to the latest revision of each structure. -/

/-- Typedef for `fmConnectParams_v1`. -/
def fmConnectParams_t : CType := fmConnectParams_v1
/-- Typedef for `fmFabricPartitionList_v2`. -/
def fmFabricPartitionList_t : CType := fmFabricPartitionList_v2
/-- Typedef for `fmActivatedFabricPartitionList_v1`. -/
def fmActivatedFabricPartitionList_t : CType := fmActivatedFabricPartitionList_v1
/-- Typedef for `fmNvlinkFailedDevices_v1`. -/
def fmNvlinkFailedDevices_t : CType := fmNvlinkFailedDevices_v1
/-- Typedef for `fmUnsupportedFabricPartitionList_v1`. -/
def fmUnsupportedFabricPartitionList_t : CType := fmUnsupportedFabricPartitionList_v1

/-! The `*_version` macros. -/

/-- Version 1 for `fmConnectParams_v1`. -/
def fmConnectV1Params_version1 : Nat := MAKE_FM_PARAM_VERSION fmConnectParams_v1.sizeof 1
/-- Latest version for `fmConnectParams_v1`. -/
def fmConnectParams_version : Nat := fmConnectV1Params_version1
/-- Version 1 for `fmFabricPartitionList_v2`. -/
def fmFabricPartitionList_version2 : Nat :=
  MAKE_FM_PARAM_VERSION fmFabricPartitionList_v2.sizeof 1
/-- Latest version for `fmFabricPartitionList_v2`. -/
def fmFabricPartitionList_version : Nat := fmFabricPartitionList_version2
/-- Version 1 for `fmActivatedFabricPartitionList_v1`. -/
def fmActivatedFabricPartitionList_version1 : Nat :=
  MAKE_FM_PARAM_VERSION fmActivatedFabricPartitionList_v1.sizeof 1
/-- Latest version for `fmActivatedFabricPartitionList_v1`. -/
def fmActivatedFabricPartitionList_version : Nat := fmActivatedFabricPartitionList_version1
/-- Version 1 for `fmNvlinkFailedDevices_v1`. -/
def fmNvlinkFailedDevices_version1 : Nat :=
  MAKE_FM_PARAM_VERSION fmNvlinkFailedDevices_v1.sizeof 1
/-- Latest version for `fmNvlinkFailedDevices_v1`. -/
def fmNvlinkFailedDevices_version : Nat := fmNvlinkFailedDevices_version1
/-- Version 1 for `fmUnsupportedFabricPartitionList_v1`. -/
def fmUnsupportedFabricPartitionList_version1 : Nat :=
  MAKE_FM_PARAM_VERSION fmUnsupportedFabricPartitionList_v1.sizeof 1
/-- Latest version for `fmUnsupportedFabricPartitionList_v1`. -/
def fmUnsupportedFabricPartitionList_version : Nat :=
  fmUnsupportedFabricPartitionList_version1

/-- The five current version tags, each with the name of its macro. -/
def currentVersionTags : List (String × Nat) :=
  [("fmConnectParams_version", fmConnectParams_version),
   ("fmFabricPartitionList_version", fmFabricPartitionList_version),
   ("fmActivatedFabricPartitionList_version", fmActivatedFabricPartitionList_version),
   ("fmNvlinkFailedDevices_version", fmNvlinkFailedDevices_version),
   ("fmUnsupportedFabricPartitionList_version", fmUnsupportedFabricPartitionList_version)]

/-! ## The entry points (`nv_fm_agent.h`) -/

/-- The parameter types used by the prototypes of `nv_fm_agent.h`. -/
inductive ParamType where
  /-- `fmHandle_t`, that is `void *`. -/
  | handle : ParamType
  /-- `fmHandle_t *`. -/
  | handlePtr : ParamType
  /-- `fmFabricPartitionId_t`, that is `unsigned int`. -/
  | partitionId : ParamType
  /-- `unsigned int`. -/
  | uint : ParamType
  /-- Pointer to the structure type called `name`. -/
  | structPtr (name : String) (ty : CType) : ParamType
  deriving Repr

/-- A prototype: the function's name and its parameters. -/
structure Prototype where
  name : String
  params : List (String × ParamType)
  deriving Repr

/-- The prototypes declared in `nv_fm_agent.h`, in order. -/
def fmApi : List Prototype :=
  [⟨"fmLibInit", []⟩,
   ⟨"fmLibShutdown", []⟩,
   ⟨"fmConnect", [("connectParams", .structPtr "fmConnectParams_t" fmConnectParams_t),
                  ("pFmHandle", .handlePtr)]⟩,
   ⟨"fmDisconnect", [("pFmHandle", .handle)]⟩,
   ⟨"fmGetSupportedFabricPartitions",
      [("pFmHandle", .handle),
       ("pFmFabricPartition", .structPtr "fmFabricPartitionList_t" fmFabricPartitionList_t)]⟩,
   ⟨"fmActivateFabricPartition", [("pFmHandle", .handle), ("partitionId", .partitionId)]⟩,
   ⟨"fmActivateFabricPartitionWithVFs",
      [("pFmHandle", .handle), ("partitionId", .partitionId),
       ("vfList", .structPtr "fmPciDevice_t" fmPciDevice_t), ("numVfs", .uint)]⟩,
   ⟨"fmDeactivateFabricPartition", [("pFmHandle", .handle), ("partitionId", .partitionId)]⟩,
   ⟨"fmSetActivatedFabricPartitions",
      [("pFmHandle", .handle),
       ("pFmActivatedPartitionList",
          .structPtr "fmActivatedFabricPartitionList_t" fmActivatedFabricPartitionList_t)]⟩,
   ⟨"fmGetNvlinkFailedDevices",
      [("pFmHandle", .handle),
       ("pFmNvlinkFailedDevices", .structPtr "fmNvlinkFailedDevices_t" fmNvlinkFailedDevices_t)]⟩,
   ⟨"fmGetUnsupportedFabricPartitions",
      [("pFmHandle", .handle),
       ("pFmUnupportedFabricPartition",
          .structPtr "fmUnsupportedFabricPartitionList_t" fmUnsupportedFabricPartitionList_t)]⟩]

/-- The structure a parameter points to, if it is a pointer to a structure. -/
def ParamType.pointee : ParamType → Option (String × CType)
  | .structPtr n t => some (n, t)
  | _ => none

/-- Every structure type passed by pointer to an entry point, with the name
of the function and of the type. -/
def structsPassedByPointer : List (String × String × CType) :=
  fmApi.flatMap fun f =>
    f.params.filterMap fun p => p.2.pointee.map fun nt => (f.name, nt.1, nt.2)

/-! ## Values exchanged with Fabric Manager

The data model of the partition registry.  The records carry the members of
the corresponding C structures; fixed-capacity arrays are lists, character
buffers are strings and `unsigned int` members are naturals. -/

/-- Identifier for a Fabric Manager API interface handle (`void *`), as an address. -/
abbrev fmHandle_t := Nat

/-- Identifier to hold a unique id assigned to each partition (`unsigned int`). -/
abbrev fmFabricPartitionId_t := Nat

/-- A value of `fmPciDevice_t`: a PCI address. -/
structure PciAddress where
  domain : Nat
  bus : Nat
  device : Nat
  function : Nat
  deriving DecidableEq, Repr

/-- A value of `fmFabricPartitionGpuInfo_t`: a GPU belonging to a partition. -/
structure GpuPartitionMember where
  physicalId : Nat
  uuid : String
  pciBusId : String
  numNvLinksAvailable : Nat
  maxNumNvLinks : Nat
  nvlinkLineRateMBps : Nat
  deriving DecidableEq, Repr

/-- A value of `fmFabricPartitionInfo_t`: a fabric partition.
`isActive` is 1 for active and 0 for not active. -/
structure FabricPartition where
  partitionId : fmFabricPartitionId_t
  isActive : Nat
  numGpus : Nat
  gpuInfo : List GpuPartitionMember
  deriving DecidableEq, Repr

/-- A value of `fmUnsupportedFabricPartitionInfo_t`. -/
structure UnsupportedPartition where
  partitionId : fmFabricPartitionId_t
  numGpus : Nat
  gpuPhysicalIds : List Nat
  deriving DecidableEq, Repr

/-- A value of `fmActivatedFabricPartitionList_t`; the first `numPartitions`
entries of `partitionIds` are the ids listed. -/
structure ActivatedPartitionList where
  version : Nat
  numPartitions : Nat
  partitionIds : List fmFabricPartitionId_t
  deriving DecidableEq, Repr

/-- Modelled from the spec: the partition catalog kept by the Fabric Manager
instance, which the headers do not declare: the supported partitions, the
unsupported partitions, and the ids of the partitions currently active. -/
structure PartitionCatalog where
  supported : List FabricPartition
  unsupported : List UnsupportedPartition
  activatedIds : List fmFabricPartitionId_t
  deriving DecidableEq, Repr

/-- Modelled from the spec: the state an entry point acts on, which the
headers do not declare: the client library (initialised or
not, the handles obtained from `fmConnect` that are still open), the Fabric
Manager instance behind them (whether the platform supports partitioning,
whether topology discovery has completed), its partition catalog, and the
virtual functions bound to the GPUs of partitions activated with VFs. -/
structure FmState where
  libInitialized : Bool
  handles : List fmHandle_t
  featureSupported : Bool
  configured : Bool
  catalog : PartitionCatalog
  vfBindings : List (fmFabricPartitionId_t × List (Nat × PciAddress))
  deriving DecidableEq, Repr

/-- The partition is in state ACTIVE: its `isActive` member is 1. -/
def FabricPartition.active (p : FabricPartition) : Bool := p.isActive == 1

/-- The ids of the supported partitions. -/
def PartitionCatalog.supportedIds (c : PartitionCatalog) : List fmFabricPartitionId_t :=
  c.supported.map fun p => p.partitionId

/-- The supported partition with the given id, if there is one. -/
def PartitionCatalog.lookup (c : PartitionCatalog) (partitionId : fmFabricPartitionId_t) :
    Option FabricPartition :=
  c.supported.find? fun p => p.partitionId == partitionId

/-- Write `v` to the `isActive` member of the partition with the given id. -/
def PartitionCatalog.setIsActive (c : PartitionCatalog)
    (partitionId : fmFabricPartitionId_t) (v : Nat) : List FabricPartition :=
  c.supported.map fun p => if p.partitionId = partitionId then { p with isActive := v } else p

/-- Modelled from the spec: the catalog after the partition went
INACTIVE → ACTIVE; its `isActive` is 1 and its id is among the activated ids. -/
def PartitionCatalog.activate (c : PartitionCatalog) (partitionId : fmFabricPartitionId_t) :
    PartitionCatalog :=
  { c with supported := c.setIsActive partitionId 1,
           activatedIds := c.activatedIds.insert partitionId }

/-- Modelled from the spec: the catalog after the partition went
ACTIVE → INACTIVE; its `isActive` is 0 and its id is not among the activated
ids. -/
def PartitionCatalog.deactivate (c : PartitionCatalog) (partitionId : fmFabricPartitionId_t) :
    PartitionCatalog :=
  { c with supported := c.setIsActive partitionId 0,
           activatedIds := c.activatedIds.filter fun q => q != partitionId }

/-- Modelled from the spec: the catalog after its view of the active
partitions is replaced by `ids`, with no activation side effect. -/
def PartitionCatalog.restore (c : PartitionCatalog) (ids : List fmFabricPartitionId_t) :
    PartitionCatalog :=
  { c with supported := c.supported.map fun p =>
             { p with isActive := if p.partitionId ∈ ids then 1 else 0 },
           activatedIds := ids }

/-- The partition with this id is supported and ACTIVE. -/
def FmState.isActive (st : FmState) (partitionId : fmFabricPartitionId_t) : Bool :=
  match st.catalog.lookup partitionId with
  | some p => p.active
  | none => false

/-! ## The partition lifecycle behind the entry points

`nv_fm_agent.h` declares the entry points and documents their return codes;
their bodies are in the Fabric Manager sources, which the headers do not
include.  The definitions below are modelled from the specification of the
partition lifecycle state machine and from the documented return codes.
`FM_ST_GENERIC_ERROR` ("an unspecified internal error") has no stated
condition and is not produced by the model. -/

/-- Modelled from the spec: the checks every partition entry point makes
before it looks at the partition id (the bodies are missing from the
headers).  In the order in which the header lists them:
`FM_ST_UNINITIALIZED` if the library has not been initialised with
`fmLibInit`, `FM_ST_BADPARAM` if `pFmHandle` is not a valid handle,
`FM_ST_NOT_SUPPORTED` if the feature is not supported or enabled,
`FM_ST_NOT_CONFIGURED` if the Fabric Manager instance is still initialising.
`none` means the request goes through to the partition registry. -/
def sessionCheck (st : FmState) (pFmHandle : fmHandle_t) : Option fmReturn_t :=
  if st.libInitialized = false then some FM_ST_UNINITIALIZED
  else if pFmHandle ∉ st.handles then some FM_ST_BADPARAM
  else if st.featureSupported = false then some FM_ST_NOT_SUPPORTED
  else if st.configured = false then some FM_ST_NOT_CONFIGURED
  else none

/-- Modelled from the spec: the body of `fmActivateFabricPartition`, missing
from the headers.  "`activate(session, partitionId)`: INACTIVE → ACTIVE.
Fails with BADPARAM if `partitionId` is not in the supported set; IN_USE if
already ACTIVE; NVLINK_ERROR if link training fails during activation (state
remains INACTIVE); NOT_SUPPORTED/NOT_CONFIGURED per the same rules as
queries."  `nvlinkOk` is the outcome of NVLink training for this call.  A
call that fails returns the state it was given. -/
def fmActivateFabricPartition (st : FmState) (pFmHandle : fmHandle_t)
    (partitionId : fmFabricPartitionId_t) (nvlinkOk : Bool) : fmReturn_t × FmState :=
  match sessionCheck st pFmHandle with
  | some e => (e, st)
  | none =>
    match st.catalog.lookup partitionId with
    | none => (FM_ST_BADPARAM, st)
    | some p =>
      if p.active then (FM_ST_IN_USE, st)
      else if nvlinkOk = false then (FM_ST_NVLINK_ERROR, st)
      else (FM_ST_SUCCESS, { st with catalog := st.catalog.activate partitionId })

/-- Modelled from the spec: the body of `fmActivateFabricPartitionWithVFs`,
missing from the headers.  "Same as `activate` but additionally binds each
physical member, in list order, to a corresponding virtual function
descriptor; `vfList` length must equal the partition's member count or the
call fails with BADPARAM"; a wrong `numVfs` "always fails with BADPARAM", so
the count is checked before the partition's state.  `vfList` is the array the
pointer refers to and `numVfs` the count passed with it. -/
def fmActivateFabricPartitionWithVFs (st : FmState) (pFmHandle : fmHandle_t)
    (partitionId : fmFabricPartitionId_t) (vfList : List PciAddress) (numVfs : Nat)
    (nvlinkOk : Bool) : fmReturn_t × FmState :=
  match sessionCheck st pFmHandle with
  | some e => (e, st)
  | none =>
    match st.catalog.lookup partitionId with
    | none => (FM_ST_BADPARAM, st)
    | some p =>
      if numVfs ≠ p.numGpus then (FM_ST_BADPARAM, st)
      else if p.active then (FM_ST_IN_USE, st)
      else if nvlinkOk = false then (FM_ST_NVLINK_ERROR, st)
      else (FM_ST_SUCCESS,
            { st with catalog := st.catalog.activate partitionId,
                      vfBindings :=
                        (partitionId,
                          (p.gpuInfo.map fun g => g.physicalId).zip (vfList.take numVfs))
                          :: st.vfBindings })

/-- Modelled from the spec: the body of `fmDeactivateFabricPartition`, missing
from the headers.  "`deactivate(session, partitionId)`: ACTIVE → INACTIVE.
Fails with UNINITIALIZED if the partition is not currently active,
NVLINK_ERROR if link teardown fails, other shared failure codes as above";
the header documents `FM_ST_BADPARAM` for an "unsupported partition id" and
`FM_ST_UNINITIALIZED` when the "specified partition is not activated".
`nvlinkOk` is the outcome of the NVLink teardown for this call.  A call that
fails returns the state it was given. -/
def fmDeactivateFabricPartition (st : FmState) (pFmHandle : fmHandle_t)
    (partitionId : fmFabricPartitionId_t) (nvlinkOk : Bool) : fmReturn_t × FmState :=
  match sessionCheck st pFmHandle with
  | some e => (e, st)
  | none =>
    match st.catalog.lookup partitionId with
    | none => (FM_ST_BADPARAM, st)
    | some p =>
      if p.active = false then (FM_ST_UNINITIALIZED, st)
      else if nvlinkOk = false then (FM_ST_NVLINK_ERROR, st)
      else (FM_ST_SUCCESS, { st with catalog := st.catalog.deactivate partitionId })

/-- The ids listed by a `fmActivatedFabricPartitionList_t` value. -/
def ActivatedPartitionList.ids (l : ActivatedPartitionList) : List fmFabricPartitionId_t :=
  l.partitionIds.take l.numPartitions

/-- Modelled from the spec: the body of `fmSetActivatedFabricPartitions`,
missing from the headers.  "Bulk state-restore issued once after a daemon
restart; replaces the daemon's entire `activatedIds` view with `idList` (which
may be empty) without re-running activation side effects; fails with BADPARAM
on malformed input, VERSION_MISMATCH on structure disagreement."  Malformed
input is a list whose count exceeds `FM_MAX_FABRIC_PARTITIONS` or the entries
present, or that names an id outside the supported set: the catalog keeps
`activatedIds` a subset of the supported ids.  A call that fails returns the
state it was given. -/
def fmSetActivatedFabricPartitions (st : FmState) (pFmHandle : fmHandle_t)
    (pFmActivatedPartitionList : ActivatedPartitionList) : fmReturn_t × FmState :=
  match sessionCheck st pFmHandle with
  | some e => (e, st)
  | none =>
    if pFmActivatedPartitionList.version ≠ fmActivatedFabricPartitionList_version then
      (FM_ST_VERSION_MISMATCH, st)
    else if FM_MAX_FABRIC_PARTITIONS < pFmActivatedPartitionList.numPartitions then
      (FM_ST_BADPARAM, st)
    else if pFmActivatedPartitionList.partitionIds.length
        < pFmActivatedPartitionList.numPartitions then
      (FM_ST_BADPARAM, st)
    else if pFmActivatedPartitionList.ids.all (fun q => q ∈ st.catalog.supportedIds) = false then
      (FM_ST_BADPARAM, st)
    else
      (FM_ST_SUCCESS, { st with catalog := st.catalog.restore pFmActivatedPartitionList.ids })

/-- A call of one of the four entry points that change the partition state,
with its arguments and, where NVLinks are trained, the outcome of training. -/
inductive Call where
  | activate (pFmHandle : fmHandle_t) (partitionId : fmFabricPartitionId_t) (nvlinkOk : Bool)
  | activateWithVFs (pFmHandle : fmHandle_t) (partitionId : fmFabricPartitionId_t)
      (vfList : List PciAddress) (numVfs : Nat) (nvlinkOk : Bool)
  | deactivate (pFmHandle : fmHandle_t) (partitionId : fmFabricPartitionId_t) (nvlinkOk : Bool)
  | setActivated (pFmHandle : fmHandle_t) (list : ActivatedPartitionList)
  deriving DecidableEq, Repr

/-- Make one call. -/
def Call.exec (st : FmState) : Call → fmReturn_t × FmState
  | .activate h p ok => fmActivateFabricPartition st h p ok
  | .activateWithVFs h p vfs n ok => fmActivateFabricPartitionWithVFs st h p vfs n ok
  | .deactivate h p ok => fmDeactivateFabricPartition st h p ok
  | .setActivated h l => fmSetActivatedFabricPartitions st h l

/-- The state after a sequence of calls, made in order. -/
def runCalls (st : FmState) : List Call → FmState
  | [] => st
  | c :: cs => runCalls (c.exec st).2 cs

/-- A state in which no partition has been activated yet: every supported
partition is INACTIVE (the initial state) and `activatedIds` is empty. -/
def FmState.fresh (st : FmState) : Bool :=
  st.catalog.activatedIds.isEmpty && st.catalog.supported.all fun p => p.isActive == 0

/-- A sample state: the library is initialised, handle 1 is open, and the
catalog reports partition 7 with two GPUs and partition 8 with one GPU, both
INACTIVE. -/
def sampleState : FmState :=
  { libInitialized := true
    handles := [1]
    featureSupported := true
    configured := true
    catalog :=
      { supported :=
          [⟨7, 0, 2, [⟨1, "GPU-1", "00000000:01:00.0", 6, 6, 25000⟩,
                      ⟨2, "GPU-2", "00000000:02:00.0", 6, 6, 25000⟩]⟩,
           ⟨8, 0, 1, [⟨3, "GPU-3", "00000000:03:00.0", 6, 6, 25000⟩]⟩]
        unsupported := []
        activatedIds := [] }
    vfBindings := [] }

/-- The call asks for partition `p` to become active: it is an activation
of `p`, or a restore whose list names `p`. -/
def Call.activates (p : fmFabricPartitionId_t) : Call → Bool
  | .activate _ q _ => q == p
  | .activateWithVFs _ q _ _ _ => q == p
  | .deactivate _ _ _ => false
  | .setActivated _ l => decide (p ∈ l.ids)

/-- Some call of the sequence, made in order from `st`, asked for `p` to
become active and succeeded. -/
def activatedBy (p : fmFabricPartitionId_t) (st : FmState) : List Call → Bool
  | [] => false
  | c :: cs =>
    (c.activates p && decide ((c.exec st).1 = FM_ST_SUCCESS)) || activatedBy p (c.exec st).2 cs

/-! ## Padding -/

mutual
/-- The bytes a type's data takes: like `sizeof`, but a structure counts only
the bytes of its members, without padding between or after them. -/
def CType.rawSize : CType → Nat
  | .uint => 4
  | .char => 1
  | .array t n => t.rawSize * n
  | .struct fs => membersRawSize fs
/-- The sum of the data bytes of the members. -/
def membersRawSize : List (String × CType) → Nat
  | [] => 0
  | (_, t) :: fs => t.rawSize + membersRawSize fs
end

/-- The five versioned structures, each with the name of its latest version
macro and the tag the macro expands to. -/
def versionedStructs : List (String × CType × Nat) :=
  [("fmConnectParams_version", fmConnectParams_v1, fmConnectParams_version),
   ("fmFabricPartitionList_version", fmFabricPartitionList_v2, fmFabricPartitionList_version),
   ("fmActivatedFabricPartitionList_version", fmActivatedFabricPartitionList_v1,
      fmActivatedFabricPartitionList_version),
   ("fmNvlinkFailedDevices_version", fmNvlinkFailedDevices_v1, fmNvlinkFailedDevices_version),
   ("fmUnsupportedFabricPartitionList_version", fmUnsupportedFabricPartitionList_v1,
      fmUnsupportedFabricPartitionList_version)]

/-! ## Values of the C structures

A record above is a value of its C structure when every `unsigned int` member
is below `2^32`, every string fits its `char` buffer with the terminating NUL,
and every array has exactly the declared number of elements.  The C types put
no other condition on a value. -/

/-- The declared length of an array type. -/
def CType.arrayLength? : CType → Option Nat
  | .array _ n => some n
  | _ => none

/-- The type of the member called `name`. -/
def CType.member? (t : CType) (name : String) : Option CType :=
  (t.layout.find? fun m => m.1 == name).map fun m => m.2.1

/-- The offset of the member called `name`. -/
def CType.offsetOf? (t : CType) (name : String) : Option Nat :=
  (t.layout.find? fun m => m.1 == name).map fun m => m.2.2

/-- The number is a value of the 32-bit `unsigned int`. -/
def fitsUInt (n : Nat) : Bool := decide (n < 2 ^ 32)

/-- The string fits a `char` buffer of `size` bytes, terminating NUL included. -/
def fitsBuffer (str : String) (size : Nat) : Bool := decide (str.length < size)

/-- The record is a value of `fmFabricPartitionGpuInfo_t`. -/
def GpuPartitionMember.wellTyped (g : GpuPartitionMember) : Bool :=
  fitsUInt g.physicalId &&
  fitsBuffer g.uuid FM_UUID_BUFFER_SIZE &&
  fitsBuffer g.pciBusId FM_DEVICE_PCI_BUS_ID_BUFFER_SIZE &&
  fitsUInt g.numNvLinksAvailable &&
  fitsUInt g.maxNumNvLinks &&
  fitsUInt g.nvlinkLineRateMBps

/-- The record is a value of `fmFabricPartitionInfo_t`: `gpuInfo` has
`FM_MAX_NUM_GPUS` elements. -/
def FabricPartition.wellTyped (p : FabricPartition) : Bool :=
  fitsUInt p.partitionId &&
  fitsUInt p.isActive &&
  fitsUInt p.numGpus &&
  decide (p.gpuInfo.length = FM_MAX_NUM_GPUS) &&
  p.gpuInfo.all fun g => g.wellTyped

/-- A value of `fmFabricPartitionList_t` (`fmFabricPartitionList_v2`). -/
structure FabricPartitionList where
  version : Nat
  numPartitions : Nat
  maxNumPartitions : Nat
  partitionInfo : List FabricPartition
  deriving DecidableEq, Repr

/-- The record is a value of `fmFabricPartitionList_t`: `partitionInfo` has
`FM_MAX_FABRIC_PARTITIONS` elements. -/
def FabricPartitionList.wellTyped (l : FabricPartitionList) : Bool :=
  fitsUInt l.version &&
  fitsUInt l.numPartitions &&
  fitsUInt l.maxNumPartitions &&
  decide (l.partitionInfo.length = FM_MAX_FABRIC_PARTITIONS) &&
  l.partitionInfo.all fun p => p.wellTyped

/-- The element `partitionInfo[i].gpuInfo[j]`, if both indices are inside
their arrays. -/
def FabricPartitionList.gpuAt (l : FabricPartitionList) (i j : Nat) :
    Option GpuPartitionMember :=
  match l.partitionInfo[i]? with
  | some p => p.gpuInfo[j]?
  | none => none

/-- An all-zero `fmFabricPartitionGpuInfo_t`. -/
def zeroGpu : GpuPartitionMember := ⟨0, "", "", 0, 0, 0⟩

/-- An all-zero `fmFabricPartitionInfo_t`. -/
def zeroPartition : FabricPartition := ⟨0, 0, 0, List.replicate FM_MAX_NUM_GPUS zeroGpu⟩

/-- A `fmFabricPartitionList_t` whose `numPartitions` is 65; the array holds 64
all-zero entries. -/
def listWith65Partitions : FabricPartitionList :=
  ⟨fmFabricPartitionList_version, 65, 64, List.replicate FM_MAX_FABRIC_PARTITIONS zeroPartition⟩

/-- A `fmFabricPartitionList_t` that lists one partition, whose `numGpus` is 17. -/
def listWith17Gpus : FabricPartitionList :=
  ⟨fmFabricPartitionList_version, 1, 64,
    ⟨7, 0, 17, List.replicate FM_MAX_NUM_GPUS zeroGpu⟩ :: List.replicate 63 zeroPartition⟩

/-- A `fmFabricPartitionGpuInfo_t` that reports 7 NVLinks available out of a
maximum of 6. -/
def gpuWith7Of6Links : GpuPartitionMember :=
  ⟨1, "GPU-1", "00000000:01:00.0", 7, 6, 25000⟩

/-- Every GPU of every supported partition of the catalog has
`numNvLinksAvailable ≤ maxNumNvLinks`. -/
def FmState.linksWithinMax (st : FmState) : Bool :=
  st.catalog.supported.all fun p =>
    p.gpuInfo.all fun g => decide (g.numNvLinksAvailable ≤ g.maxNumNvLinks)

/-- A `fmFabricPartitionList_t` that lists one partition with two GPUs. -/
def listWithOnePartition : FabricPartitionList :=
  ⟨fmFabricPartitionList_version, 1, 64,
    ⟨7, 0, 2, List.replicate FM_MAX_NUM_GPUS zeroGpu⟩ :: List.replicate 63 zeroPartition⟩

/-! ## Theorems -/

/-- Helper: below the 24-bit size bound and the 8-bit revision bound the
macro is `size + ver * 2 ^ 24`; nothing is lost to the OR or to the cast. -/
theorem make_version_eq_add (s v : Nat) (hs : s < 2 ^ 24) (hv : v < 256) :
    MAKE_FM_PARAM_VERSION s v = s + v * 2 ^ 24 := by
  unfold MAKE_FM_PARAM_VERSION
  have h1 : s ||| (v <<< 24) = s + v * 2 ^ 24 := by
    rw [Nat.shiftLeft_eq, Nat.lor_comm, Nat.mul_comm v, ← Nat.mul_add_lt_is_or hs v]
    omega
  rw [h1]
  apply Nat.mod_eq_of_lt
  omega

/-- C1: for every size `s < 2^24` and revision `v < 256` the tag holds the
revision in its high byte and the size in its low three bytes, equals
`s + v * 2^24`, and unpacking it returns the pair that was packed. -/
theorem C1_tag_roundtrip (s v : Nat) (hs : s < 2 ^ 24) (hv : v < 256) :
    MAKE_FM_PARAM_VERSION s v >>> 24 = v ∧
    MAKE_FM_PARAM_VERSION s v &&& 0xFFFFFF = s ∧
    MAKE_FM_PARAM_VERSION s v = s + v * 2 ^ 24 ∧
    (MAKE_FM_PARAM_VERSION s v &&& 0xFFFFFF, MAKE_FM_PARAM_VERSION s v >>> 24) = (s, v) := by
  have h := make_version_eq_add s v hs hv
  have hshift : (s + v * 2 ^ 24) >>> 24 = v := by
    rw [Nat.shiftRight_eq_div_pow]
    omega
  have hmask : (s + v * 2 ^ 24) &&& 0xFFFFFF = s := by
    have : (0xFFFFFF : Nat) = 2 ^ 24 - 1 := by norm_num
    rw [this, Nat.and_pow_two_sub_one_eq_mod]
    omega
  refine ⟨?_, ?_, h, ?_⟩
  · rw [h]; exact hshift
  · rw [h]; exact hmask
  · simp only [h, hshift, hmask]

/-- Witness for C1 at `sizeof(fmConnectParams_v1) = 268`, revision 1. -/
theorem C1_tag_roundtrip_witness :
    MAKE_FM_PARAM_VERSION 268 1 >>> 24 = 1 ∧
    MAKE_FM_PARAM_VERSION 268 1 &&& 0xFFFFFF = 268 ∧
    MAKE_FM_PARAM_VERSION 268 1 = 268 + 1 * 2 ^ 24 ∧
    (MAKE_FM_PARAM_VERSION 268 1 &&& 0xFFFFFF, MAKE_FM_PARAM_VERSION 268 1 >>> 24) = (268, 1) :=
  C1_tag_roundtrip 268 1 (by norm_num) (by norm_num)

/-- C2: for sizes below `2^24` and revisions below 256, two tags are equal
exactly when both the sizes and the revisions are equal; so a tag encoding
another size never equals the expected tag. -/
theorem C2_tag_injective (s1 s2 v1 v2 : Nat)
    (hs1 : s1 < 2 ^ 24) (hs2 : s2 < 2 ^ 24) (hv1 : v1 < 256) (hv2 : v2 < 256) :
    (MAKE_FM_PARAM_VERSION s1 v1 = MAKE_FM_PARAM_VERSION s2 v2 ↔ s1 = s2 ∧ v1 = v2) ∧
    (s1 ≠ s2 → MAKE_FM_PARAM_VERSION s1 v1 ≠ MAKE_FM_PARAM_VERSION s2 v2) := by
  rw [make_version_eq_add s1 v1 hs1 hv1, make_version_eq_add s2 v2 hs2 hv2]
  constructor
  · constructor
    · intro h; omega
    · rintro ⟨rfl, rfl⟩; rfl
  · intro hne h; omega

/-- Witness for C2: sizes 268 and 264 at revision 1. -/
theorem C2_tag_injective_witness :
    (MAKE_FM_PARAM_VERSION 268 1 = MAKE_FM_PARAM_VERSION 264 1 ↔ 268 = 264 ∧ 1 = 1) ∧
    (268 ≠ 264 → MAKE_FM_PARAM_VERSION 268 1 ≠ MAKE_FM_PARAM_VERSION 264 1) :=
  C2_tag_injective 268 264 1 1 (by norm_num) (by norm_num) (by norm_num) (by norm_num)

/-- C3: `FM_ST_SUCCESS` is 0, each of the ten error codes is strictly
negative, the eleven values are pairwise distinct and are exactly
0, -1, ..., -10, and a return value is 0 exactly for `FM_ST_SUCCESS`. -/
theorem C3_return_codes :
    FM_ST_SUCCESS.toInt = 0 ∧
    (∀ r : fmReturn_t, r ≠ FM_ST_SUCCESS → r.toInt < 0) ∧
    (∀ r ∈ fmReturn_t.errors, r.toInt < 0) ∧
    fmReturn_t.errors.length = 10 ∧
    (∀ r : fmReturn_t, r ∈ fmReturn_t.all) ∧
    (∀ r1 r2 : fmReturn_t, r1.toInt = r2.toInt → r1 = r2) ∧
    fmReturn_t.all.map fmReturn_t.toInt = [0, -1, -2, -3, -4, -5, -6, -7, -8, -9, -10] ∧
    (∀ r : fmReturn_t, r.toInt = 0 ↔ r = FM_ST_SUCCESS) := by
  refine ⟨rfl, ?_, ?_, rfl, ?_, ?_, rfl, ?_⟩
  · intro r hr; cases r <;> simp [fmReturn_t.toInt] at hr ⊢
  · intro r hr
    simp only [fmReturn_t.errors, List.mem_cons, List.mem_singleton, List.not_mem_nil,
      or_false] at hr
    rcases hr with h | h | h | h | h | h | h | h | h | h <;> subst h <;> decide
  · intro r; cases r <;> simp [fmReturn_t.all]
  · intro r1 r2 h
    cases r1 <;> cases r2 <;> first | rfl | (simp [fmReturn_t.toInt] at h)
  · intro r; cases r <;> simp [fmReturn_t.toInt]

/-- C4: the five current version tags are pairwise distinct, so the tag of
one structure type is never the tag of another. -/
theorem C4_version_tags_distinct :
    (currentVersionTags.map Prod.snd).Nodup ∧
    currentVersionTags.length = 5 ∧
    (∀ a ∈ currentVersionTags, ∀ b ∈ currentVersionTags, a.2 = b.2 → a.1 = b.1) := by
  refine ⟨by decide, rfl, by decide⟩

/-- Helper: the structure types passed by pointer, listed. -/
theorem structsPassedByPointer_eq :
    structsPassedByPointer =
      [("fmConnect", "fmConnectParams_t", fmConnectParams_t),
       ("fmGetSupportedFabricPartitions", "fmFabricPartitionList_t", fmFabricPartitionList_t),
       ("fmActivateFabricPartitionWithVFs", "fmPciDevice_t", fmPciDevice_t),
       ("fmSetActivatedFabricPartitions", "fmActivatedFabricPartitionList_t",
          fmActivatedFabricPartitionList_t),
       ("fmGetNvlinkFailedDevices", "fmNvlinkFailedDevices_t", fmNvlinkFailedDevices_t),
       ("fmGetUnsupportedFabricPartitions", "fmUnsupportedFabricPartitionList_t",
          fmUnsupportedFabricPartitionList_t)] := rfl

/-- C5, as stated, fails: `fmPciDevice_t`, the element type of the `vfList`
passed by pointer to `fmActivateFabricPartitionWithVFs`, is passed by pointer
to an entry point and does not begin with `unsigned int version`; its first
member is `domain`. -/
theorem C5_counterexample_fmPciDevice :
    ("fmActivateFabricPartitionWithVFs", "fmPciDevice_t", fmPciDevice_t)
        ∈ structsPassedByPointer ∧
    fmPciDevice_t.beginsWithVersion = false ∧
    fmPciDevice_t.firstMember = some ("domain", CType.uint, 0) ∧
    ¬ (∀ e ∈ structsPassedByPointer, e.2.2.beginsWithVersion = true) := by
  have hmem : ("fmActivateFabricPartitionWithVFs", "fmPciDevice_t", fmPciDevice_t)
      ∈ structsPassedByPointer := by
    rw [structsPassedByPointer_eq]; simp
  refine ⟨hmem, by decide, rfl, ?_⟩
  intro h
  exact absurd (h _ hmem) (by decide)

/-- C5, amended: every structure type passed by pointer to an entry point
other than `fmPciDevice_t` (these are the five versioned structures) has
`unsigned int version` as its first member, at offset 0; `fmPciDevice_t` has
no `version` member at all. -/
theorem C5_versioned_structs_begin_with_version :
    (∀ e ∈ structsPassedByPointer, e.2.1 ≠ "fmPciDevice_t" →
        e.2.2.firstMember = some ("version", CType.uint, 0)) ∧
    (structsPassedByPointer.map fun e => e.2.1) =
      ["fmConnectParams_t", "fmFabricPartitionList_t", "fmPciDevice_t",
       "fmActivatedFabricPartitionList_t", "fmNvlinkFailedDevices_t",
       "fmUnsupportedFabricPartitionList_t"] ∧
    fmConnectParams_t.beginsWithVersion = true ∧
    fmFabricPartitionList_t.beginsWithVersion = true ∧
    fmActivatedFabricPartitionList_t.beginsWithVersion = true ∧
    fmNvlinkFailedDevices_t.beginsWithVersion = true ∧
    fmUnsupportedFabricPartitionList_t.beginsWithVersion = true ∧
    fmPciDevice_t.hasMember "version" = false := by
  refine ⟨?_, ?_⟩
  case refine_1 =>
    intro e he hne
    rw [structsPassedByPointer_eq] at he
    simp only [List.mem_cons, List.mem_singleton, List.not_mem_nil, or_false] at he
    rcases he with h | h | h | h | h | h <;> subst h
    · rfl
    · rfl
    · exact absurd rfl hne
    · rfl
    · rfl
    · rfl
  case refine_2 =>
    repeat' apply And.intro
    all_goals decide

/-- Witness for the amended C5 at the parameter block of `fmConnect`. -/
theorem C5_versioned_structs_begin_with_version_witness :
    fmConnectParams_t.firstMember = some ("version", CType.uint, 0) :=
  C5_versioned_structs_begin_with_version.1
    ("fmConnect", "fmConnectParams_t", fmConnectParams_t)
    (by rw [structsPassedByPointer_eq]; simp) (by decide)

/-! ### The partition lifecycle -/

/-- Helper: a partition found by `lookup` is in the supported list and has
the id that was looked up. -/
theorem lookup_some {c : PartitionCatalog} {id : fmFabricPartitionId_t} {p : FabricPartition}
    (h : c.lookup id = some p) : p ∈ c.supported ∧ p.partitionId = id := by
  unfold PartitionCatalog.lookup at h
  refine ⟨List.mem_of_find?_eq_some h, ?_⟩
  have := List.find?_some h
  simpa using this

/-- Helper: every supported id is found by `lookup`. -/
theorem lookup_of_mem {c : PartitionCatalog} {id : fmFabricPartitionId_t}
    (h : id ∈ c.supportedIds) : ∃ p, c.lookup id = some p := by
  unfold PartitionCatalog.supportedIds at h
  obtain ⟨q, hq, hid⟩ := List.mem_map.1 h
  unfold PartitionCatalog.lookup
  cases hf : c.supported.find? (fun p => p.partitionId == id) with
  | some p => exact ⟨p, rfl⟩
  | none =>
    have := List.find?_eq_none.1 hf q hq
    simp [hid] at this

/-- Helper: an id that is not supported is not found by `lookup`. -/
theorem lookup_none_of_not_mem {c : PartitionCatalog} {id : fmFabricPartitionId_t}
    (h : id ∉ c.supportedIds) : c.lookup id = none := by
  cases hf : c.lookup id with
  | none => rfl
  | some p =>
    obtain ⟨hmem, hid⟩ := lookup_some hf
    exact absurd (List.mem_map.2 ⟨p, hmem, hid⟩) h

/-- Helper: looking up in a list whose entries were rewritten by a function
that keeps the partition id. -/
theorem find_map_keeping_id (l : List FabricPartition) (f : FabricPartition → FabricPartition)
    (hf : ∀ q, (f q).partitionId = q.partitionId) (id : fmFabricPartitionId_t) :
    (l.map f).find? (fun p => p.partitionId == id)
      = (l.find? (fun p => p.partitionId == id)).map f := by
  induction l with
  | nil => rfl
  | cons a l ih =>
    simp only [List.map_cons, List.find?_cons, hf]
    cases h : (a.partitionId == id) with
    | true => rfl
    | false => simpa using ih

/-- Helper: after the INACTIVE → ACTIVE transition of `id`, `id` is ACTIVE. -/
theorem isActive_activate (st : FmState) (id : fmFabricPartitionId_t) (p : FabricPartition)
    (h : st.catalog.lookup id = some p) :
    ({ st with catalog := st.catalog.activate id } : FmState).isActive id = true := by
  have hid := (lookup_some h).2
  unfold PartitionCatalog.lookup at h
  simp only [FmState.isActive, PartitionCatalog.lookup, PartitionCatalog.activate,
    PartitionCatalog.setIsActive]
  rw [find_map_keeping_id _ _ (by intro q; split <;> rfl), h]
  simp [FabricPartition.active, hid]

/-- Helper: activation is atomic.  In the sample state a call on partition 7
whose link training fails returns `FM_ST_NVLINK_ERROR` and leaves 7 INACTIVE,
and the next call on 7 succeeds: only a call that took effect makes the next
one return `FM_ST_IN_USE`. -/
theorem activate_after_nvlink_error :
    (fmActivateFabricPartition sampleState 1 7 false).1 = FM_ST_NVLINK_ERROR ∧
    (fmActivateFabricPartition sampleState 1 7 false).2 = sampleState ∧
    (fmActivateFabricPartition (fmActivateFabricPartition sampleState 1 7 false).2 1 7 true).1
      = FM_ST_SUCCESS := by
  decide

/-- C6: for every supported partition id `p`, once a call of
`fmActivateFabricPartition` on `p` has taken effect (it returned
`FM_ST_SUCCESS`, or `FM_ST_IN_USE` because `p` was active already), a second
call on the same session with no call in between returns `FM_ST_IN_USE`,
whatever the outcome of link training would be, changes no state and leaves
`p` ACTIVE. -/
theorem C6_second_activate_in_use (st : FmState) (h : fmHandle_t)
    (p : fmFabricPartitionId_t) (ok1 ok2 : Bool)
    (hsupp : p ∈ st.catalog.supportedIds)
    (hfirst : (fmActivateFabricPartition st h p ok1).1 = FM_ST_SUCCESS ∨
              (fmActivateFabricPartition st h p ok1).1 = FM_ST_IN_USE) :
    (fmActivateFabricPartition (fmActivateFabricPartition st h p ok1).2 h p ok2).1
        = FM_ST_IN_USE ∧
    (fmActivateFabricPartition (fmActivateFabricPartition st h p ok1).2 h p ok2).2
        = (fmActivateFabricPartition st h p ok1).2 ∧
    (fmActivateFabricPartition (fmActivateFabricPartition st h p ok1).2 h p ok2).2.isActive p
        = true := by
  obtain ⟨part, hpart⟩ := lookup_of_mem hsupp
  -- the state after the first call: the session check passes and `p` is ACTIVE
  have key : sessionCheck (fmActivateFabricPartition st h p ok1).2 h = none ∧
      (fmActivateFabricPartition st h p ok1).2.isActive p = true := by
    cases hs : sessionCheck st h with
    | some e =>
      have hcases : e = FM_ST_UNINITIALIZED ∨ e = FM_ST_BADPARAM ∨
          e = FM_ST_NOT_SUPPORTED ∨ e = FM_ST_NOT_CONFIGURED := by
        unfold sessionCheck at hs
        split_ifs at hs <;> simp_all
      simp only [fmActivateFabricPartition, hs] at hfirst
      rcases hcases with rfl | rfl | rfl | rfl <;> simp at hfirst
    | none =>
      simp only [fmActivateFabricPartition, hs, hpart] at hfirst ⊢
      by_cases hact : part.active = true
      · simp only [hact, if_true]
        exact ⟨hs, by simp [FmState.isActive, hpart, hact]⟩
      · simp only [hact] at hfirst ⊢
        cases ok1 with
        | false => simp at hfirst
        | true =>
          simp only [Bool.true_eq_false, if_false]
          refine ⟨?_, isActive_activate st p part hpart⟩
          simpa [sessionCheck] using hs
  obtain ⟨hs1, hact1⟩ := key
  have hsecond : fmActivateFabricPartition (fmActivateFabricPartition st h p ok1).2 h p ok2
      = (FM_ST_IN_USE, (fmActivateFabricPartition st h p ok1).2) := by
    generalize (fmActivateFabricPartition st h p ok1).2 = st1 at hs1 hact1 ⊢
    unfold FmState.isActive at hact1
    unfold fmActivateFabricPartition
    rw [hs1]
    cases hl : st1.catalog.lookup p with
    | none => simp [hl] at hact1
    | some q =>
      simp only [hl] at hact1
      simp [hact1]
  rw [hsecond]
  exact ⟨rfl, rfl, hact1⟩

/-- Witness for C6: partition 7 of the sample state, activated twice on
handle 1. -/
theorem C6_second_activate_in_use_witness :
    (fmActivateFabricPartition (fmActivateFabricPartition sampleState 1 7 true).2 1 7 true).1
        = FM_ST_IN_USE ∧
    (fmActivateFabricPartition (fmActivateFabricPartition sampleState 1 7 true).2 1 7 true).2
        = (fmActivateFabricPartition sampleState 1 7 true).2 ∧
    (fmActivateFabricPartition
        (fmActivateFabricPartition sampleState 1 7 true).2 1 7 true).2.isActive 7 = true :=
  C6_second_activate_in_use sampleState 1 7 true true (by decide) (Or.inl (by decide))

/-- Helper: a call that does not return `FM_ST_SUCCESS` returns the state it
was given. -/
theorem exec_failed_unchanged (st : FmState) (c : Call)
    (h : (c.exec st).1 ≠ FM_ST_SUCCESS) : (c.exec st).2 = st := by
  cases c with
  | activate hd q ok =>
    simp only [Call.exec, fmActivateFabricPartition] at h ⊢
    split at h <;> try rfl
    split at h <;> try rfl
    split_ifs at h ⊢ <;> first | rfl | exact absurd rfl h
  | activateWithVFs hd q vfs n ok =>
    simp only [Call.exec, fmActivateFabricPartitionWithVFs] at h ⊢
    split at h <;> try rfl
    split at h <;> try rfl
    split_ifs at h ⊢ <;> first | rfl | exact absurd rfl h
  | deactivate hd q ok =>
    simp only [Call.exec, fmDeactivateFabricPartition] at h ⊢
    split at h <;> try rfl
    split at h <;> try rfl
    split_ifs at h ⊢ <;> first | rfl | exact absurd rfl h
  | setActivated hd l =>
    simp only [Call.exec, fmSetActivatedFabricPartitions] at h ⊢
    split at h <;> try rfl
    split_ifs at h ⊢ <;> first | rfl | exact absurd rfl h

/-- Helper: the ACTIVE state of `p` after the supported list was rewritten by
a function that keeps the partition id. -/
theorem isActive_of_map (st st1 : FmState) (f : FabricPartition → FabricPartition)
    (hf : ∀ q, (f q).partitionId = q.partitionId)
    (hsup : st1.catalog.supported = st.catalog.supported.map f) (p : fmFabricPartitionId_t) :
    st1.isActive p = match st.catalog.lookup p with
      | some e => (f e).active
      | none => false := by
  unfold FmState.isActive PartitionCatalog.lookup
  rw [hsup, find_map_keeping_id _ _ hf]
  cases st.catalog.supported.find? (fun q => q.partitionId == p) <;> rfl

/-- Helper: a call that does not ask for `p` to become active leaves an
INACTIVE `p` INACTIVE. -/
theorem exec_keeps_inactive (st : FmState) (c : Call) (p : fmFabricPartitionId_t)
    (hin : st.isActive p = false) (hc : c.activates p = false) :
    (c.exec st).2.isActive p = false := by
  by_cases hres : (c.exec st).1 = FM_ST_SUCCESS
  swap
  · rw [exec_failed_unchanged st c hres]; exact hin
  have hin1 := hin
  unfold FmState.isActive at hin1
  cases c with
  | activate hd q ok =>
    have hqp : q ≠ p := by simpa [Call.activates] using hc
    simp only [Call.exec, fmActivateFabricPartition] at hres ⊢
    split at hres <;> try exact hin
    split at hres <;> try exact hin
    split_ifs at hres ⊢
    rw [isActive_of_map st _ (fun e => if e.partitionId = q then { e with isActive := 1 } else e)
      (by intro e; dsimp only; split <;> rfl) rfl p]
    cases hl : st.catalog.lookup p with
    | none => rfl
    | some e =>
      have hid := (lookup_some hl).2
      simp only [hl] at hin1
      simp only [hid, Ne.symm hqp, if_false]
      exact hin1
  | activateWithVFs hd q vfs n ok =>
    have hqp : q ≠ p := by simpa [Call.activates] using hc
    simp only [Call.exec, fmActivateFabricPartitionWithVFs] at hres ⊢
    split at hres <;> try exact hin
    split at hres <;> try exact hin
    split_ifs at hres ⊢
    rw [isActive_of_map st _ (fun e => if e.partitionId = q then { e with isActive := 1 } else e)
      (by intro e; dsimp only; split <;> rfl) rfl p]
    cases hl : st.catalog.lookup p with
    | none => rfl
    | some e =>
      have hid := (lookup_some hl).2
      simp only [hl] at hin1
      simp only [hid, Ne.symm hqp, if_false]
      exact hin1
  | deactivate hd q ok =>
    simp only [Call.exec, fmDeactivateFabricPartition] at hres ⊢
    split at hres <;> try exact hin
    split at hres <;> try exact hin
    split_ifs at hres ⊢
    rw [isActive_of_map st _ (fun e => if e.partitionId = q then { e with isActive := 0 } else e)
      (by intro e; dsimp only; split <;> rfl) rfl p]
    cases hl : st.catalog.lookup p with
    | none => rfl
    | some e =>
      simp only [hl] at hin1
      by_cases he : e.partitionId = q
      · simp [he, FabricPartition.active]
      · simp only [he, if_false]; exact hin1
  | setActivated hd l =>
    have hpl : p ∉ l.ids := by simpa [Call.activates] using hc
    simp only [Call.exec, fmSetActivatedFabricPartitions] at hres ⊢
    split at hres <;> try exact hin
    split_ifs at hres ⊢
    rw [isActive_of_map st _
      (fun e => { e with isActive := if e.partitionId ∈ l.ids then 1 else 0 })
      (by intro e; rfl) rfl p]
    cases hl : st.catalog.lookup p with
    | none => rfl
    | some e =>
      have hid := (lookup_some hl).2
      simp [hid, hpl, FabricPartition.active]

/-- Helper: in a fresh state every partition is INACTIVE. -/
theorem fresh_inactive (st : FmState) (hf : st.fresh = true) (p : fmFabricPartitionId_t) :
    st.isActive p = false := by
  unfold FmState.isActive
  cases hl : st.catalog.lookup p with
  | none => rfl
  | some e =>
    have hmem := (lookup_some hl).1
    simp only [FmState.fresh, Bool.and_eq_true, List.all_eq_true] at hf
    have := hf.2 e hmem
    simp only [beq_iff_eq] at this
    simp [FabricPartition.active, this]

/-- Helper: a partition that no call of the sequence activated is INACTIVE
after the sequence. -/
theorem never_activated_inactive (p : fmFabricPartitionId_t) (cs : List Call) :
    ∀ st : FmState, st.isActive p = false → activatedBy p st cs = false →
      (runCalls st cs).isActive p = false := by
  induction cs with
  | nil => intro st hin _; exact hin
  | cons c cs ih =>
    intro st hin hnot
    simp only [activatedBy, Bool.or_eq_false_iff, Bool.and_eq_false_iff,
      decide_eq_false_iff_not] at hnot
    obtain ⟨hc, hrest⟩ := hnot
    apply ih _ _ hrest
    rcases hc with hc | hc
    · exact exec_keeps_inactive st c p hin hc
    · rw [exec_failed_unchanged st c hc]; exact hin

/-- Helper: on a session that passes the checks, deactivating a supported
partition that is INACTIVE returns `FM_ST_UNINITIALIZED` and the state it was
given; deactivating an id that is not supported returns `FM_ST_BADPARAM` and
the state it was given. -/
theorem deactivate_not_active (st : FmState) (h : fmHandle_t) (p : fmFabricPartitionId_t)
    (ok : Bool) (hs : sessionCheck st h = none) :
    (p ∈ st.catalog.supportedIds → st.isActive p = false →
      fmDeactivateFabricPartition st h p ok = (FM_ST_UNINITIALIZED, st)) ∧
    (p ∉ st.catalog.supportedIds →
      fmDeactivateFabricPartition st h p ok = (FM_ST_BADPARAM, st)) := by
  constructor
  · intro hsupp hin
    obtain ⟨e, he⟩ := lookup_of_mem hsupp
    simp only [FmState.isActive, he] at hin
    simp [fmDeactivateFabricPartition, hs, he, hin]
  · intro hns
    simp [fmDeactivateFabricPartition, hs, lookup_none_of_not_mem hns]

/-- C7, as stated, fails: in the sample state nothing was ever activated and
id 99 is not in the supported set; `fmDeactivateFabricPartition` on 99 returns
`FM_ST_BADPARAM` (-1), as the header documents for an unsupported partition
id, not `FM_ST_UNINITIALIZED`. -/
theorem C7_counterexample_unsupported_id :
    sampleState.fresh = true ∧
    activatedBy 99 sampleState [] = false ∧
    99 ∉ sampleState.catalog.supportedIds ∧
    (fmDeactivateFabricPartition sampleState 1 99 true).1 = FM_ST_BADPARAM ∧
    (fmDeactivateFabricPartition sampleState 1 99 true).1 ≠ FM_ST_UNINITIALIZED := by
  decide

/-- C7, amended: start from a fresh state and make any sequence of calls, none
of which activated `p`.  On a session that passes the checks, if `p` is in the
supported set then `fmDeactivateFabricPartition` on `p` returns
`FM_ST_UNINITIALIZED` (-4), which is not `FM_ST_BADPARAM`, and leaves the state
unchanged; if `p` is outside the supported set it returns `FM_ST_BADPARAM` and
leaves the state unchanged. -/
theorem C7_deactivate_never_activated (st0 : FmState) (cs : List Call) (h : fmHandle_t)
    (p : fmFabricPartitionId_t) (ok : Bool)
    (hfresh : st0.fresh = true)
    (hnever : activatedBy p st0 cs = false)
    (hs : sessionCheck (runCalls st0 cs) h = none) :
    (p ∈ (runCalls st0 cs).catalog.supportedIds →
      (fmDeactivateFabricPartition (runCalls st0 cs) h p ok).1 = FM_ST_UNINITIALIZED ∧
      (fmDeactivateFabricPartition (runCalls st0 cs) h p ok).1.toInt = -4 ∧
      (fmDeactivateFabricPartition (runCalls st0 cs) h p ok).1 ≠ FM_ST_BADPARAM ∧
      (fmDeactivateFabricPartition (runCalls st0 cs) h p ok).2 = runCalls st0 cs) ∧
    (p ∉ (runCalls st0 cs).catalog.supportedIds →
      (fmDeactivateFabricPartition (runCalls st0 cs) h p ok).1 = FM_ST_BADPARAM ∧
      (fmDeactivateFabricPartition (runCalls st0 cs) h p ok).2 = runCalls st0 cs) := by
  have hin := never_activated_inactive p cs st0 (fresh_inactive st0 hfresh p) hnever
  obtain ⟨h1, h2⟩ := deactivate_not_active (runCalls st0 cs) h p ok hs
  constructor
  · intro hsupp
    rw [h1 hsupp hin]
    exact ⟨rfl, rfl, by simp, rfl⟩
  · intro hns
    rw [h2 hns]
    exact ⟨rfl, rfl⟩

/-- Witness for the amended C7: in the sample state partition 7 is activated
and deactivated, partition 8 never; deactivating 8 returns
`FM_ST_UNINITIALIZED`. -/
theorem C7_deactivate_never_activated_witness :
    (fmDeactivateFabricPartition
        (runCalls sampleState [Call.activate 1 7 true, Call.deactivate 1 7 true]) 1 8 true).1
      = FM_ST_UNINITIALIZED :=
  ((C7_deactivate_never_activated sampleState
      [Call.activate 1 7 true, Call.deactivate 1 7 true] 1 8 true
      (by decide) (by decide) (by decide)).1 (by decide)).1

/-- C8: for every supported partition and every `vfList`, on a session that
passes the checks, `fmActivateFabricPartitionWithVFs` with `numVfs` different
from the partition's `numGpus` returns `FM_ST_BADPARAM`, whatever the state of
the partition and the outcome link training would have, and changes no state:
the `isActive` flag and the set of activated ids are as before. -/
theorem C8_wrong_vf_count_badparam (st : FmState) (h : fmHandle_t)
    (p : fmFabricPartitionId_t) (part : FabricPartition) (vfList : List PciAddress)
    (numVfs : Nat) (ok : Bool)
    (hs : sessionCheck st h = none)
    (hsupp : st.catalog.lookup p = some part)
    (hne : numVfs ≠ part.numGpus) :
    (fmActivateFabricPartitionWithVFs st h p vfList numVfs ok).1 = FM_ST_BADPARAM ∧
    (fmActivateFabricPartitionWithVFs st h p vfList numVfs ok).2 = st ∧
    (fmActivateFabricPartitionWithVFs st h p vfList numVfs ok).2.isActive p = st.isActive p ∧
    (fmActivateFabricPartitionWithVFs st h p vfList numVfs ok).2.catalog.activatedIds
      = st.catalog.activatedIds := by
  have hcall : fmActivateFabricPartitionWithVFs st h p vfList numVfs ok
      = (FM_ST_BADPARAM, st) := by
    simp [fmActivateFabricPartitionWithVFs, hs, hsupp, hne]
  rw [hcall]
  exact ⟨rfl, rfl, rfl, rfl⟩

/-- Witness for C8: partition 7 of the sample state has two GPUs; three VFs
are given. -/
theorem C8_wrong_vf_count_badparam_witness :
    (fmActivateFabricPartitionWithVFs sampleState 1 7
        [⟨0, 1, 0, 1⟩, ⟨0, 1, 0, 2⟩, ⟨0, 1, 0, 3⟩] 3 true).1 = FM_ST_BADPARAM :=
  (C8_wrong_vf_count_badparam sampleState 1 7
      ⟨7, 0, 2, [⟨1, "GPU-1", "00000000:01:00.0", 6, 6, 25000⟩,
                 ⟨2, "GPU-2", "00000000:02:00.0", 6, 6, 25000⟩]⟩
      [⟨0, 1, 0, 1⟩, ⟨0, 1, 0, 2⟩, ⟨0, 1, 0, 3⟩] 3 true
      (by decide) (by decide) (by decide)).1

/-- Helper: the session checks never produce `FM_ST_SUCCESS`. -/
theorem sessionCheck_ne_success (st : FmState) (h : fmHandle_t) :
    sessionCheck st h ≠ some FM_ST_SUCCESS := by
  unfold sessionCheck
  split_ifs <;> simp

/-- Helper: a successful `fmActivateFabricPartition` found the partition
INACTIVE and made the INACTIVE → ACTIVE transition, nothing else. -/
theorem activate_success (st : FmState) (h : fmHandle_t) (p : fmFabricPartitionId_t)
    (ok : Bool) (hres : (fmActivateFabricPartition st h p ok).1 = FM_ST_SUCCESS) :
    sessionCheck st h = none ∧ (∃ part, st.catalog.lookup p = some part) ∧
    st.isActive p = false ∧
    (fmActivateFabricPartition st h p ok).2 = { st with catalog := st.catalog.activate p } := by
  unfold fmActivateFabricPartition at hres ⊢
  cases hs : sessionCheck st h with
  | some e =>
    simp only [hs] at hres
    exact absurd (hres ▸ hs) (sessionCheck_ne_success st h)
  | none =>
    simp only [hs] at hres ⊢
    cases hl : st.catalog.lookup p with
    | none => simp [hl] at hres
    | some part =>
      simp only [hl] at hres ⊢
      split_ifs at hres ⊢ with ha hk
      exact ⟨trivial, ⟨part, rfl⟩, by simpa [FmState.isActive, hl] using ha, rfl⟩

/-- Helper: a successful `fmDeactivateFabricPartition` found the partition
ACTIVE and made the ACTIVE → INACTIVE transition, nothing else. -/
theorem deactivate_success (st : FmState) (h : fmHandle_t) (p : fmFabricPartitionId_t)
    (ok : Bool) (hres : (fmDeactivateFabricPartition st h p ok).1 = FM_ST_SUCCESS) :
    sessionCheck st h = none ∧ (∃ part, st.catalog.lookup p = some part) ∧
    st.isActive p = true ∧
    (fmDeactivateFabricPartition st h p ok).2
      = { st with catalog := st.catalog.deactivate p } := by
  unfold fmDeactivateFabricPartition at hres ⊢
  cases hs : sessionCheck st h with
  | some e =>
    simp only [hs] at hres
    exact absurd (hres ▸ hs) (sessionCheck_ne_success st h)
  | none =>
    simp only [hs] at hres ⊢
    cases hl : st.catalog.lookup p with
    | none => simp [hl] at hres
    | some part =>
      simp only [hl] at hres ⊢
      split_ifs at hres ⊢ with ha hk
      exact ⟨trivial, ⟨part, rfl⟩, by simpa [FmState.isActive, hl] using ha, rfl⟩

/-- Helper: the supported list after the INACTIVE → ACTIVE → INACTIVE round
trip of `p`, entry by entry: ids, GPU counts and GPU lists are the same,
entries of other partitions are the same, entries of `p` have `isActive` 0. -/
theorem round_trip_supported (l : List FabricPartition) (p : fmFabricPartitionId_t) :
    List.Forall₂
      (fun a b : FabricPartition =>
        b.partitionId = a.partitionId ∧ b.numGpus = a.numGpus ∧ b.gpuInfo = a.gpuInfo ∧
        (a.partitionId ≠ p → b = a) ∧ (a.partitionId = p → b.isActive = 0))
      l
      ((l.map fun e => if e.partitionId = p then { e with isActive := 1 } else e).map
        fun e => if e.partitionId = p then { e with isActive := 0 } else e) := by
  induction l with
  | nil => exact List.Forall₂.nil
  | cons a l ih =>
    refine List.Forall₂.cons ?_ ih
    by_cases ha : a.partitionId = p
    · simp [ha]
    · simp [ha]

/-- Helper: the round trip gives back the supported list when the entries of
`p` had `isActive` 0. -/
theorem round_trip_supported_eq (l : List FabricPartition) (p : fmFabricPartitionId_t)
    (h0 : ∀ e ∈ l, e.partitionId = p → e.isActive = 0) :
    ((l.map fun e => if e.partitionId = p then { e with isActive := 1 } else e).map
        fun e => if e.partitionId = p then { e with isActive := 0 } else e) = l := by
  induction l with
  | nil => rfl
  | cons a l ih =>
    have hl := ih (fun e he => h0 e (List.mem_cons_of_mem _ he))
    simp only [List.map_cons, hl]
    congr 1
    by_cases ha : a.partitionId = p
    · have := h0 a (List.mem_cons_self _ _) ha
      cases a
      simp_all
    · simp [ha]

/-- C9: for every supported partition `p` that is INACTIVE, a successful
`fmActivateFabricPartition(p)` followed immediately by a successful
`fmDeactivateFabricPartition(p)` leaves `p` INACTIVE and the catalog otherwise
as it was: entry by entry the supported list has the same ids, `numGpus` and
`gpuInfo`, the entries of other partitions are unchanged, the unsupported list
is unchanged, `p` is not among the activated ids and the other activated ids
are the same; nothing else in the state changes.  When the entries of `p` had
`isActive` 0 and `p` was not listed as activated, the state is exactly the
state before. -/
theorem C9_activate_deactivate_round_trip (st : FmState) (h : fmHandle_t)
    (p : fmFabricPartitionId_t) (ok1 ok2 : Bool)
    (hsupp : p ∈ st.catalog.supportedIds)
    (hinactive : st.isActive p = false)
    (h1 : (fmActivateFabricPartition st h p ok1).1 = FM_ST_SUCCESS)
    (h2 : (fmDeactivateFabricPartition (fmActivateFabricPartition st h p ok1).2 h p ok2).1
            = FM_ST_SUCCESS) :
    (fmDeactivateFabricPartition (fmActivateFabricPartition st h p ok1).2 h p ok2).2.isActive p
      = false ∧
    List.Forall₂
      (fun a b : FabricPartition =>
        b.partitionId = a.partitionId ∧ b.numGpus = a.numGpus ∧ b.gpuInfo = a.gpuInfo ∧
        (a.partitionId ≠ p → b = a) ∧ (a.partitionId = p → b.isActive = 0))
      st.catalog.supported
      (fmDeactivateFabricPartition
        (fmActivateFabricPartition st h p ok1).2 h p ok2).2.catalog.supported ∧
    (fmDeactivateFabricPartition
        (fmActivateFabricPartition st h p ok1).2 h p ok2).2.catalog.unsupported
      = st.catalog.unsupported ∧
    p ∉ (fmDeactivateFabricPartition
        (fmActivateFabricPartition st h p ok1).2 h p ok2).2.catalog.activatedIds ∧
    (∀ q, q ≠ p →
      (q ∈ (fmDeactivateFabricPartition
          (fmActivateFabricPartition st h p ok1).2 h p ok2).2.catalog.activatedIds
        ↔ q ∈ st.catalog.activatedIds)) ∧
    (fmDeactivateFabricPartition (fmActivateFabricPartition st h p ok1).2 h p ok2).2
      = { st with catalog := (st.catalog.activate p).deactivate p } ∧
    ((∀ e ∈ st.catalog.supported, e.partitionId = p → e.isActive = 0) →
      p ∉ st.catalog.activatedIds →
      (fmDeactivateFabricPartition (fmActivateFabricPartition st h p ok1).2 h p ok2).2 = st) := by
  obtain ⟨_, _, _, hst1⟩ := activate_success st h p ok1 h1
  obtain ⟨_, _, _, hst2⟩ := deactivate_success _ h p ok2 h2
  rw [hst2, hst1]
  obtain ⟨part, hpart⟩ := lookup_of_mem hsupp
  have hid := (lookup_some hpart).2
  refine ⟨?_, ?_, rfl, ?_, ?_, rfl, ?_⟩
  · rw [isActive_of_map st _
      (fun e => if (if e.partitionId = p then { e with isActive := 1 } else e).partitionId = p
        then { (if e.partitionId = p then { e with isActive := 1 } else e) with isActive := 0 }
        else (if e.partitionId = p then { e with isActive := 1 } else e))
      (by intro e; dsimp only; split_ifs <;> rfl)
      (by simp [PartitionCatalog.deactivate, PartitionCatalog.activate,
            PartitionCatalog.setIsActive, List.map_map, Function.comp_def]) p]
    simp [hpart, hid, FabricPartition.active]
  · exact round_trip_supported st.catalog.supported p
  · simp [PartitionCatalog.deactivate, PartitionCatalog.activate]
  · intro q hq
    simp [PartitionCatalog.deactivate, PartitionCatalog.activate, List.mem_filter,
      List.mem_insert_iff, hq]
  · intro h0 hp
    have hsup := round_trip_supported_eq st.catalog.supported p h0
    have hids : (st.catalog.activatedIds.insert p).filter (fun q => q != p)
        = st.catalog.activatedIds := by
      rw [List.insert_of_not_mem hp, List.filter_cons]
      simp only [bne_self_eq_false, Bool.false_eq_true, if_false]
      apply List.filter_eq_self.2
      intro a ha
      simp only [bne_iff_ne, ne_eq]
      rintro rfl
      exact hp ha
    cases st with
    | mk li hd fs cf cat vb =>
      cases cat with
      | mk sup uns ids =>
        simp only [PartitionCatalog.deactivate, PartitionCatalog.activate,
          PartitionCatalog.setIsActive] at hsup hids ⊢
        rw [hsup, hids]

/-- Witness for C9: partition 7 of the sample state, activated and then
deactivated on handle 1, both with success; the state is the sample state
again. -/
theorem C9_activate_deactivate_round_trip_witness :
    (fmDeactivateFabricPartition (fmActivateFabricPartition sampleState 1 7 true).2 1 7 true).2
      = sampleState :=
  (C9_activate_deactivate_round_trip sampleState 1 7 true true
      (by decide) (by decide) (by decide) (by decide)).2.2.2.2.2.2 (by decide) (by decide)

/-- Helper: what a call can do to the catalog.  It returns the state it was
given, or it activated a supported partition, or it deactivated a partition,
or it replaced the activated ids by a list of supported ids. -/
theorem exec_catalog_cases (st : FmState) (c : Call) :
    (c.exec st).2 = st ∨
    (∃ p, p ∈ st.catalog.supportedIds ∧ (c.exec st).2.catalog = st.catalog.activate p) ∨
    (∃ p, (c.exec st).2.catalog = st.catalog.deactivate p) ∨
    (∃ ids, (∀ q ∈ ids, q ∈ st.catalog.supportedIds) ∧
      (c.exec st).2.catalog = st.catalog.restore ids) := by
  by_cases hres : (c.exec st).1 = FM_ST_SUCCESS
  swap
  · exact Or.inl (exec_failed_unchanged st c hres)
  cases c with
  | activate hd q ok =>
    obtain ⟨_, ⟨part, hpart⟩, _, hst⟩ := activate_success st hd q ok hres
    refine Or.inr (Or.inl ⟨q, ?_, ?_⟩)
    · exact List.mem_map.2 ⟨part, (lookup_some hpart).1, (lookup_some hpart).2⟩
    · simp only [Call.exec, hst]
  | activateWithVFs hd q vfs n ok =>
    simp only [Call.exec, fmActivateFabricPartitionWithVFs] at hres ⊢
    split at hres
    · exact Or.inl rfl
    · cases hl : st.catalog.lookup q with
      | none => simp [hl]
      | some part =>
        simp only [hl] at hres ⊢
        split_ifs at hres ⊢
        refine Or.inr (Or.inl ⟨q, ?_, rfl⟩)
        exact List.mem_map.2 ⟨part, (lookup_some hl).1, (lookup_some hl).2⟩
  | deactivate hd q ok =>
    obtain ⟨_, _, _, hst⟩ := deactivate_success st hd q ok hres
    refine Or.inr (Or.inr (Or.inl ⟨q, ?_⟩))
    simp only [Call.exec, hst]
  | setActivated hd l =>
    simp only [Call.exec, fmSetActivatedFabricPartitions] at hres ⊢
    split at hres
    · exact Or.inl rfl
    · split_ifs at hres ⊢ with hv hn hlen hall
      refine Or.inr (Or.inr (Or.inr ⟨l.ids, ?_, rfl⟩))
      intro q hq
      have hall1 : l.ids.all (fun q => decide (q ∈ st.catalog.supportedIds)) = true := by
        simpa using hall
      simpa using List.all_eq_true.1 hall1 q hq

/-- Helper: no call changes the ids of the supported partitions. -/
theorem exec_supportedIds (st : FmState) (c : Call) :
    (c.exec st).2.catalog.supportedIds = st.catalog.supportedIds := by
  rcases exec_catalog_cases st c with h | ⟨p, _, h⟩ | ⟨p, h⟩ | ⟨ids, _, h⟩
  · rw [h]
  · rw [h]
    simp only [PartitionCatalog.supportedIds, PartitionCatalog.activate,
      PartitionCatalog.setIsActive, List.map_map]
    apply List.map_congr_left
    intro e _
    simp only [Function.comp_apply]
    split <;> rfl
  · rw [h]
    simp only [PartitionCatalog.supportedIds, PartitionCatalog.deactivate,
      PartitionCatalog.setIsActive, List.map_map]
    apply List.map_congr_left
    intro e _
    simp only [Function.comp_apply]
    split <;> rfl
  · rw [h]
    simp only [PartitionCatalog.supportedIds, PartitionCatalog.restore, List.map_map]
    apply List.map_congr_left
    intro e _
    rfl

/-- Helper: one call keeps the activated ids inside the supported ids. -/
theorem exec_keeps_subset (st : FmState) (c : Call)
    (hinv : ∀ q ∈ st.catalog.activatedIds, q ∈ st.catalog.supportedIds) :
    ∀ q ∈ (c.exec st).2.catalog.activatedIds, q ∈ (c.exec st).2.catalog.supportedIds := by
  intro q hq
  rw [exec_supportedIds]
  rcases exec_catalog_cases st c with h | ⟨p, hp, h⟩ | ⟨p, h⟩ | ⟨ids, hids, h⟩
  · rw [h] at hq; exact hinv q hq
  · rw [h] at hq
    simp only [PartitionCatalog.activate, List.mem_insert_iff] at hq
    rcases hq with rfl | hq
    · exact hp
    · exact hinv q hq
  · rw [h] at hq
    simp only [PartitionCatalog.deactivate, List.mem_filter] at hq
    exact hinv q hq.1
  · rw [h] at hq
    exact hids q hq

/-- Helper: any sequence of calls keeps the activated ids inside the supported
ids and does not change the supported ids. -/
theorem runCalls_keeps_subset (cs : List Call) :
    ∀ st : FmState, (∀ q ∈ st.catalog.activatedIds, q ∈ st.catalog.supportedIds) →
      (∀ q ∈ (runCalls st cs).catalog.activatedIds, q ∈ (runCalls st cs).catalog.supportedIds) ∧
      (runCalls st cs).catalog.supportedIds = st.catalog.supportedIds := by
  induction cs with
  | nil => intro st hinv; exact ⟨hinv, rfl⟩
  | cons c cs ih =>
    intro st hinv
    obtain ⟨h1, h2⟩ := ih (c.exec st).2 (exec_keeps_subset st c hinv)
    exact ⟨h1, by rw [runCalls, h2, exec_supportedIds]⟩

/-- C10: start from a fresh state (no partition activated) and make any
sequence of calls of `fmActivateFabricPartition`,
`fmActivateFabricPartitionWithVFs`, `fmDeactivateFabricPartition` and
`fmSetActivatedFabricPartitions`.  In the state reached, every activated id is
a supported id, and the supported ids are those of the start.  In particular
`fmSetActivatedFabricPartitions` called there with a list containing an id
outside the supported set does not succeed, changes no state, and does not
leave that id activated. -/
theorem C10_activated_subset_supported (st0 : FmState) (cs : List Call)
    (hfresh : st0.fresh = true) :
    (∀ q ∈ (runCalls st0 cs).catalog.activatedIds,
        q ∈ (runCalls st0 cs).catalog.supportedIds) ∧
    (runCalls st0 cs).catalog.supportedIds = st0.catalog.supportedIds ∧
    (∀ (h : fmHandle_t) (l : ActivatedPartitionList) (id : fmFabricPartitionId_t),
        id ∈ l.ids → id ∉ (runCalls st0 cs).catalog.supportedIds →
        (fmSetActivatedFabricPartitions (runCalls st0 cs) h l).1 ≠ FM_ST_SUCCESS ∧
        (fmSetActivatedFabricPartitions (runCalls st0 cs) h l).2 = runCalls st0 cs ∧
        id ∉ (fmSetActivatedFabricPartitions (runCalls st0 cs) h l).2.catalog.activatedIds) := by
  have hinit : ∀ q ∈ st0.catalog.activatedIds, q ∈ st0.catalog.supportedIds := by
    intro q hq
    simp only [FmState.fresh, Bool.and_eq_true, List.isEmpty_iff] at hfresh
    rw [hfresh.1] at hq
    exact absurd hq (List.not_mem_nil q)
  obtain ⟨hinv, hsame⟩ := runCalls_keeps_subset cs st0 hinit
  refine ⟨hinv, hsame, ?_⟩
  intro h l id hid hns
  have hfail : (fmSetActivatedFabricPartitions (runCalls st0 cs) h l).1 ≠ FM_ST_SUCCESS := by
    intro hres
    simp only [fmSetActivatedFabricPartitions] at hres
    split at hres
    · rename_i e hs
      have he : e = FM_ST_SUCCESS := hres
      rw [he] at hs
      exact absurd hs (sessionCheck_ne_success _ h)
    · split_ifs at hres with hv hn hlen hall
      have hall1 : l.ids.all (fun q => decide (q ∈ (runCalls st0 cs).catalog.supportedIds))
          = true := by simpa using hall
      have := List.all_eq_true.1 hall1 id hid
      exact hns (by simpa using this)
  have hsame2 := exec_failed_unchanged (runCalls st0 cs) (Call.setActivated h l) hfail
  simp only [Call.exec] at hsame2
  refine ⟨hfail, hsame2, ?_⟩
  rw [hsame2]
  exact fun hmem => hns (hinv id hmem)

/-- Witness for C10: on the sample state, a restore listing the unsupported
id 99 after partition 7 was activated does not leave 99 activated. -/
theorem C10_activated_subset_supported_witness :
    99 ∉ (fmSetActivatedFabricPartitions
            (runCalls sampleState [Call.activate 1 7 true]) 1
            ⟨fmActivatedFabricPartitionList_version, 2, [7, 99]⟩).2.catalog.activatedIds :=
  ((C10_activated_subset_supported sampleState [Call.activate 1 7 true] (by decide)).2.2
      1 ⟨fmActivatedFabricPartitionList_version, 2, [7, 99]⟩ 99 (by decide) (by decide)).2.2

/-! ### Sizes of the versioned structures and the range of the tag -/

/-- C13: with `unsigned int` 4 bytes (4-aligned) and `char` 1 byte, the five
versioned structures have no padding (`sizeof` is the sum of the bytes of the
members) and sizes 268, 131852, 264, 10428 and 4616, each below `2^24`; every
current version macro equals `sizeof + 2^24`, that is 16777484, 16909068,
16777480, 16787644 and 16781832, so its low three bytes are the size and its
revision byte is 1, also for `fmFabricPartitionList_version2` of the structure
named `_v2`. -/
theorem C13_sizes_and_tags :
    (versionedStructs.map fun e => e.2.1.sizeof) = [268, 131852, 264, 10428, 4616] ∧
    (versionedStructs.map fun e => e.2.1.rawSize) = [268, 131852, 264, 10428, 4616] ∧
    (fmConnectParams_v1.sizeof = 268 ∧ fmConnectParams_v1.rawSize = 268) ∧
    (fmFabricPartitionList_v2.sizeof = 131852 ∧ fmFabricPartitionList_v2.rawSize = 131852) ∧
    (fmActivatedFabricPartitionList_v1.sizeof = 264 ∧
      fmActivatedFabricPartitionList_v1.rawSize = 264) ∧
    (fmNvlinkFailedDevices_v1.sizeof = 10428 ∧ fmNvlinkFailedDevices_v1.rawSize = 10428) ∧
    (fmUnsupportedFabricPartitionList_v1.sizeof = 4616 ∧
      fmUnsupportedFabricPartitionList_v1.rawSize = 4616) ∧
    (versionedStructs.all fun e => decide (e.2.1.sizeof < 2 ^ 24)) = true ∧
    (versionedStructs.all fun e => decide (e.2.2 = e.2.1.sizeof + 2 ^ 24)) = true ∧
    (versionedStructs.map fun e => e.2.2)
      = [16777484, 16909068, 16777480, 16787644, 16781832] ∧
    fmConnectParams_version = 16777484 ∧
    fmFabricPartitionList_version = 16909068 ∧
    fmActivatedFabricPartitionList_version = 16777480 ∧
    fmNvlinkFailedDevices_version = 16787644 ∧
    fmUnsupportedFabricPartitionList_version = 16781832 ∧
    (versionedStructs.all fun e => decide (e.2.2 >>> 24 = 1)) = true ∧
    (versionedStructs.all fun e => decide (e.2.2 &&& 0xFFFFFF = e.2.1.sizeof)) = true ∧
    fmFabricPartitionList_version2 = fmFabricPartitionList_v2.sizeof + 2 ^ 24 ∧
    fmFabricPartitionList_version2 >>> 24 = 1 := by
  have hsizes : (versionedStructs.map fun e => e.2.1.sizeof)
      = [268, 131852, 264, 10428, 4616] := by decide
  have hraw : (versionedStructs.map fun e => e.2.1.rawSize)
      = [268, 131852, 264, 10428, 4616] := by decide
  have htags : (versionedStructs.map fun e => e.2.2)
      = [16777484, 16909068, 16777480, 16787644, 16781832] := by decide
  refine ⟨hsizes, hraw, ?_⟩
  repeat' apply And.intro
  all_goals first | exact htags | decide

/-- C14: the 24-bit size bound is needed for the tag to identify a structure.
Two distinct sizes, one of them at least `2^24`, give the same tag at the same
revision: 268 and `2^24 + 268` at revision 1 both give 16777484.  Size `2^24`
at revision 0 gives the tag of size 0 at revision 1.  The cast to 32 bits
loses the rest: size `2^32 + 268` at revision 1 gives 16777484 too. -/
theorem C14_size_bound_needed :
    (∃ s1 s2 v : Nat, s1 ≠ s2 ∧ s1 < 2 ^ 24 ∧ 2 ^ 24 ≤ s2 ∧ v < 256 ∧
      MAKE_FM_PARAM_VERSION s1 v = MAKE_FM_PARAM_VERSION s2 v) ∧
    MAKE_FM_PARAM_VERSION 268 1 = 16777484 ∧
    MAKE_FM_PARAM_VERSION (2 ^ 24 + 268) 1 = 16777484 ∧
    MAKE_FM_PARAM_VERSION (2 ^ 24) 0 = MAKE_FM_PARAM_VERSION 0 1 ∧
    MAKE_FM_PARAM_VERSION (2 ^ 32 + 268) 1 = 16777484 := by
  have hcollide : MAKE_FM_PARAM_VERSION 268 1 = MAKE_FM_PARAM_VERSION (2 ^ 24 + 268) 1 := by
    decide
  refine ⟨⟨268, 2 ^ 24 + 268, 1, ?_⟩, ?_⟩
  · refine ⟨by decide, by decide, by decide, by decide, hcollide⟩
  · repeat' apply And.intro
    all_goals decide

/-! ### Element counts and link counts -/

/-- Helper: the sample values are values of their C structures. -/
theorem sample_values_wellTyped :
    zeroGpu.wellTyped = true ∧ zeroPartition.wellTyped = true ∧
    listWith65Partitions.wellTyped = true ∧ listWith17Gpus.wellTyped = true ∧
    gpuWith7Of6Links.wellTyped = true := by
  have hg : zeroGpu.wellTyped = true := by decide
  have hp : zeroPartition.wellTyped = true := by
    simp [FabricPartition.wellTyped, zeroPartition, fitsUInt, hg]
  refine ⟨hg, hp, ?_, ?_, by decide⟩
  · simp [FabricPartitionList.wellTyped, listWith65Partitions, fitsUInt, hp,
      fmFabricPartitionList_version, fmFabricPartitionList_version2, MAKE_FM_PARAM_VERSION]
    decide
  · simp [FabricPartitionList.wellTyped, listWith17Gpus, fitsUInt, hp, hg,
      FabricPartition.wellTyped,
      fmFabricPartitionList_version, fmFabricPartitionList_version2, MAKE_FM_PARAM_VERSION,
      FM_MAX_FABRIC_PARTITIONS]
    decide

/-- Helper: what being a value of `fmFabricPartitionList_t` says about the
arrays: `partitionInfo` has 64 elements and every `gpuInfo` has 16. -/
theorem wellTyped_lengths (l : FabricPartitionList) (hwt : l.wellTyped = true) :
    l.partitionInfo.length = FM_MAX_FABRIC_PARTITIONS ∧
    ∀ p ∈ l.partitionInfo, p.gpuInfo.length = FM_MAX_NUM_GPUS := by
  simp only [FabricPartitionList.wellTyped, Bool.and_eq_true, decide_eq_true_eq,
    List.all_eq_true] at hwt
  refine ⟨hwt.1.2, ?_⟩
  intro p hp
  have := hwt.2 p hp
  simp only [FabricPartition.wellTyped, Bool.and_eq_true, decide_eq_true_eq] at this
  exact this.1.2

/-- C11, as stated, fails: `numPartitions` and `numGpus` are plain
`unsigned int` members.  `listWith65Partitions` is a value of
`fmFabricPartitionList_t` with `numPartitions = 65`, and its listed entry 64 is
outside `partitionInfo`; `listWith17Gpus` is a value that lists one partition
with `numGpus = 17`, and that partition's entry 16 is outside `gpuInfo`. -/
theorem C11_counterexample_counts_unbounded :
    listWith65Partitions.wellTyped = true ∧
    ¬ (listWith65Partitions.numPartitions ≤ FM_MAX_FABRIC_PARTITIONS) ∧
    (64 < listWith65Partitions.numPartitions ∧ listWith65Partitions.partitionInfo[64]? = none) ∧
    listWith17Gpus.wellTyped = true ∧
    (0 < listWith17Gpus.numPartitions ∧
      (listWith17Gpus.partitionInfo[0]?.map fun p => p.numGpus) = some 17) ∧
    listWith17Gpus.gpuAt 0 16 = none ∧
    ¬ (∀ l : FabricPartitionList, l.wellTyped = true →
        l.numPartitions ≤ FM_MAX_FABRIC_PARTITIONS ∧
        ∀ i < l.numPartitions, ∀ p, l.partitionInfo[i]? = some p →
          p.numGpus ≤ FM_MAX_NUM_GPUS) := by
  have h65 : ¬ (listWith65Partitions.numPartitions ≤ FM_MAX_FABRIC_PARTITIONS) := by decide
  refine ⟨sample_values_wellTyped.2.2.1, h65, ⟨by decide, ?_⟩,
    sample_values_wellTyped.2.2.2.1, ⟨by decide, rfl⟩, ?_, ?_⟩
  · simp [listWith65Partitions, FM_MAX_FABRIC_PARTITIONS]
  · simp [FabricPartitionList.gpuAt, listWith17Gpus, FM_MAX_NUM_GPUS]
  · intro h
    exact h65 (h listWith65Partitions sample_values_wellTyped.2.2.1).1

/-- C11, amended: the arrays are sized by the platform maximums, the counts
are not bounded by the type.  `partitionInfo` is declared with
`FM_MAX_FABRIC_PARTITIONS` (64) elements and `gpuInfo` with `FM_MAX_NUM_GPUS`
(16), and every value has arrays of these lengths.  For a value,
`partitionInfo[i].gpuInfo[j]` is inside the arrays for every
`i < numPartitions` and `j < numGpus` exactly when `numPartitions ≤ 64` and
every listed partition has `numGpus ≤ 16`. -/
theorem C11_counts_within_max_iff_inside (l : FabricPartitionList)
    (hwt : l.wellTyped = true) :
    ((fmFabricPartitionList_v2.member? "partitionInfo").bind CType.arrayLength?
        = some FM_MAX_FABRIC_PARTITIONS ∧
      (fmFabricPartitionInfo_t.member? "gpuInfo").bind CType.arrayLength?
        = some FM_MAX_NUM_GPUS ∧
      FM_MAX_FABRIC_PARTITIONS = 64 ∧ FM_MAX_NUM_GPUS = 16) ∧
    (l.partitionInfo.length = FM_MAX_FABRIC_PARTITIONS ∧
      ∀ p ∈ l.partitionInfo, p.gpuInfo.length = FM_MAX_NUM_GPUS) ∧
    ((l.numPartitions ≤ FM_MAX_FABRIC_PARTITIONS ∧
        ∀ i < l.numPartitions, ∀ p, l.partitionInfo[i]? = some p →
          p.numGpus ≤ FM_MAX_NUM_GPUS)
      ↔
      ∀ i < l.numPartitions, ∃ p, l.partitionInfo[i]? = some p ∧
        ∀ j < p.numGpus, (l.gpuAt i j).isSome = true) := by
  obtain ⟨hlen, hgpu⟩ := wellTyped_lengths l hwt
  refine ⟨⟨by decide, by decide, rfl, rfl⟩, ⟨hlen, hgpu⟩, ?_⟩
  constructor
  · rintro ⟨hn, hg⟩ i hi
    have hi64 : i < l.partitionInfo.length := by rw [hlen]; exact Nat.lt_of_lt_of_le hi hn
    refine ⟨l.partitionInfo[i], List.getElem?_eq_getElem hi64, ?_⟩
    intro j hj
    have hp := hg i hi _ (List.getElem?_eq_getElem hi64)
    have hlen16 := hgpu _ (List.getElem_mem hi64)
    have hj16 : j < (l.partitionInfo[i]).gpuInfo.length := by
      rw [hlen16]; exact Nat.lt_of_lt_of_le hj hp
    simp [FabricPartitionList.gpuAt, List.getElem?_eq_getElem hi64,
      List.getElem?_eq_getElem hj16]
  · intro hacc
    constructor
    · by_contra hn
      have h64 : FM_MAX_FABRIC_PARTITIONS < l.numPartitions := Nat.lt_of_not_le hn
      obtain ⟨p, hp, _⟩ := hacc FM_MAX_FABRIC_PARTITIONS h64
      have := (List.getElem?_eq_some_iff.1 hp).1
      rw [hlen] at this
      exact Nat.lt_irrefl _ this
    · intro i hi p hp
      obtain ⟨q, hq, hin⟩ := hacc i hi
      rw [hp] at hq
      cases hq
      by_contra hn
      have h16 : FM_MAX_NUM_GPUS < p.numGpus := Nat.lt_of_not_le hn
      have hsome := hin FM_MAX_NUM_GPUS h16
      have hmem : p ∈ l.partitionInfo := List.getElem?_mem hp
      have hlen16 := hgpu p hmem
      simp only [FabricPartitionList.gpuAt, hp] at hsome
      have hnone : p.gpuInfo[FM_MAX_NUM_GPUS]? = none :=
        List.getElem?_eq_none (Nat.le_of_eq hlen16)
      rw [hnone] at hsome
      exact absurd hsome (by simp)

/-- Witness for the amended C11: a value that lists one partition with two
GPUs; its counts are within the maximums, so its listed partition and that
partition's listed GPUs are inside the arrays. -/
theorem C11_counts_within_max_iff_inside_witness :
    listWithOnePartition.partitionInfo.length = FM_MAX_FABRIC_PARTITIONS ∧
    ∃ p, listWithOnePartition.partitionInfo[0]? = some p ∧
      ∀ j < p.numGpus, (listWithOnePartition.gpuAt 0 j).isSome = true := by
  have hwt : listWithOnePartition.wellTyped = true := by
    have hg : zeroGpu.wellTyped = true := by decide
    have hp : zeroPartition.wellTyped = true := by
      simp [FabricPartition.wellTyped, zeroPartition, fitsUInt, hg]
    simp [FabricPartitionList.wellTyped, listWithOnePartition, fitsUInt, hp, hg,
      FabricPartition.wellTyped, fmFabricPartitionList_version,
      fmFabricPartitionList_version2, MAKE_FM_PARAM_VERSION, FM_MAX_FABRIC_PARTITIONS]
    decide
  have hcounts : listWithOnePartition.numPartitions ≤ FM_MAX_FABRIC_PARTITIONS ∧
      ∀ i < listWithOnePartition.numPartitions, ∀ p,
        listWithOnePartition.partitionInfo[i]? = some p → p.numGpus ≤ FM_MAX_NUM_GPUS := by
    refine ⟨by decide, ?_⟩
    intro i hi p hp
    have hi0 : i = 0 := by
      have : i < 1 := hi
      omega
    subst hi0
    simp only [listWithOnePartition, List.getElem?_cons_zero, Option.some.injEq] at hp
    subst hp
    decide
  exact ⟨(C11_counts_within_max_iff_inside listWithOnePartition hwt).2.1.1,
    (C11_counts_within_max_iff_inside listWithOnePartition hwt).2.2.1 hcounts 0 (by decide)⟩

/-- C12, as stated, fails: `numNvLinksAvailable` and `maxNumNvLinks` are two
separate `unsigned int` members, at offsets 116 and 120, and the type does not
relate them.  `gpuWith7Of6Links` is a value of `fmFabricPartitionGpuInfo_t`
with 7 links available and a maximum of 6. -/
theorem C12_counterexample_links_above_max :
    gpuWith7Of6Links.wellTyped = true ∧
    ¬ (gpuWith7Of6Links.numNvLinksAvailable ≤ gpuWith7Of6Links.maxNumNvLinks) ∧
    fmFabricPartitionGpuInfo_t.offsetOf? "numNvLinksAvailable" = some 116 ∧
    fmFabricPartitionGpuInfo_t.offsetOf? "maxNumNvLinks" = some 120 ∧
    ¬ (∀ g : GpuPartitionMember, g.wellTyped = true →
        g.numNvLinksAvailable ≤ g.maxNumNvLinks) := by
  refine ⟨by decide, by decide, by decide, by decide, ?_⟩
  intro h
  exact absurd (h gpuWith7Of6Links (by decide)) (by decide)

/-- Helper: no call changes the GPU lists of the supported partitions. -/
theorem exec_gpuInfo (st : FmState) (c : Call) :
    ((c.exec st).2.catalog.supported.map fun p => p.gpuInfo)
      = st.catalog.supported.map fun p => p.gpuInfo := by
  rcases exec_catalog_cases st c with h | ⟨p, _, h⟩ | ⟨p, h⟩ | ⟨ids, _, h⟩
  · rw [h]
  · rw [h]
    simp only [PartitionCatalog.activate, PartitionCatalog.setIsActive, List.map_map]
    apply List.map_congr_left
    intro e _
    simp only [Function.comp_apply]
    split <;> rfl
  · rw [h]
    simp only [PartitionCatalog.deactivate, PartitionCatalog.setIsActive, List.map_map]
    apply List.map_congr_left
    intro e _
    simp only [Function.comp_apply]
    split <;> rfl
  · rw [h]
    simp only [PartitionCatalog.restore, List.map_map]
    apply List.map_congr_left
    intro e _
    rfl

/-- Helper: no sequence of calls changes the GPU lists of the supported
partitions. -/
theorem runCalls_gpuInfo (cs : List Call) :
    ∀ st : FmState, ((runCalls st cs).catalog.supported.map fun p => p.gpuInfo)
      = st.catalog.supported.map fun p => p.gpuInfo := by
  induction cs with
  | nil => intro st; rfl
  | cons c cs ih =>
    intro st
    rw [runCalls, ih, exec_gpuInfo]

/-- Helper: `linksWithinMax` depends on the GPU lists only. -/
theorem linksWithinMax_eq (st : FmState) :
    st.linksWithinMax = (st.catalog.supported.map fun p => p.gpuInfo).all fun gs =>
      gs.all fun g => decide (g.numNvLinksAvailable ≤ g.maxNumNvLinks) := by
  unfold FmState.linksWithinMax
  induction st.catalog.supported with
  | nil => rfl
  | cons a l ih => simp only [List.all_cons, List.map_cons, ih]

/-- C12, amended: the structure does not relate the two members, the catalog
keeps the relation.  If every GPU of every supported partition has
`numNvLinksAvailable ≤ maxNumNvLinks` in a state, then after any sequence of
calls of the four partition entry points every GPU of every supported
partition still has; the calls do not change the GPU lists. -/
theorem C12_links_within_max_kept (st0 : FmState) (cs : List Call)
    (h0 : st0.linksWithinMax = true) :
    (runCalls st0 cs).linksWithinMax = true ∧
    (∀ p ∈ (runCalls st0 cs).catalog.supported, ∀ g ∈ p.gpuInfo,
        g.numNvLinksAvailable ≤ g.maxNumNvLinks) ∧
    ((runCalls st0 cs).catalog.supported.map fun p => p.gpuInfo)
      = st0.catalog.supported.map fun p => p.gpuInfo := by
  have hsame := runCalls_gpuInfo cs st0
  have hkept : (runCalls st0 cs).linksWithinMax = true := by
    rw [linksWithinMax_eq, hsame, ← linksWithinMax_eq]; exact h0
  refine ⟨hkept, ?_, hsame⟩
  intro p hp g hg
  simp only [FmState.linksWithinMax, List.all_eq_true, decide_eq_true_eq] at hkept
  exact hkept p hp g hg

/-- Witness for the amended C12: the sample state, whose GPUs have 6 links
available out of 6, after partition 7 was activated and deactivated. -/
theorem C12_links_within_max_kept_witness :
    (runCalls sampleState
      [Call.activate 1 7 true, Call.deactivate 1 7 true]).linksWithinMax = true :=
  (C12_links_within_max_kept sampleState
    [Call.activate 1 7 true, Call.deactivate 1 7 true] (by decide)).1

end FabricManager
